import Mathlib

/-!
Shallow embedding of the SPI-Flash-Circular-Buffer driver
(spi_flash_cb.c / spi_flash_cb.h / sfcb_flash_types.h) in Lean 4.

Machine integers are modelled as `Nat` with explicit `% 2^w` at the
points where the C code truncates (casts to `uint8_t`/`uint16_t`, or
`uint32_t` arithmetic that can wrap).  The shared SPI byte buffer is a
`List Nat` of byte values; the flash device is a function from byte
address to byte value.  The flash-type compile-time constants are those
of the `W25Q16JV` branch of `sfcb_flash_types.h`; functions whose
behaviour the claims compare across flash types (`sfcb_init`,
`sfcb_new_cb`) additionally get a `_topo`-parameterised form whose
W25Q16JV instantiation is the plain name.
-/

set_option maxRecDepth 100000

namespace SFCB

/-! ## Flash type constants (sfcb_flash_types.h, W25Q16JV branch) -/

def SFCB_FLASH_IST_WR_ENA : Nat := 0x06

def SFCB_FLASH_IST_ERASE_SECTOR : Nat := 0x20

def SFCB_FLASH_IST_RD_STATE_REG : Nat := 0x05

def SFCB_FLASH_IST_RD_DATA : Nat := 0x03

def SFCB_FLASH_IST_WR_PAGE : Nat := 0x02

def SFCB_FLASH_TOPO_ADR_BYTE : Nat := 3

def SFCB_FLASH_TOPO_SECTOR_SIZE : Nat := 4096

def SFCB_FLASH_TOPO_PAGE_SIZE : Nat := 256

def SFCB_FLASH_TOPO_FLASH_SIZE : Nat := 2097152

def SFCB_FLASH_MNG_WIP_MSK : Nat := 0x01

/-- Length of SFCB_FLASH_NAME ("W25Q16JV") without terminating NUL,
i.e. `sizeof(SFCB_FLASH_NAME) - 1` of the W25Q16JV branch. -/
def SFCB_FLASH_NAME_LEN : Nat := 8

/-- Length of SFCB_FLASH_NAME ("") in the empty `#else` branch of
sfcb_flash_types.h (no flash type selected at compile time). -/
def SFCB_FLASH_NAME_LEN_EMPTY : Nat := 0

/-! ## Function exit codes (spi_flash_cb.h) -/

def SFCB_OK : Nat := 0

def SFCB_E_NO_FLASH : Nat := 1

def SFCB_E_MEM : Nat := 2

def SFCB_E_FLASH_FULL : Nat := 4

def SFCB_E_WKR_BSY : Nat := 8

def SFCB_E_NO_CB_Q : Nat := 16

def SFCB_E_WKR_REQ : Nat := 32

def SFCB_E_CB_Q_MTY : Nat := 64

/-! ## Enumerations -/

/-- Command class `t_sfcb_cmd`. -/
inductive SfcbCmd where
  | idle
  | mkcb
  | add
  | get
  | raw
deriving DecidableEq, Repr, Inhabited

/-- Execution stage `t_sfcb_stage`. -/
inductive SfcbStage where
  | stg00
  | stg01
  | stg02
  | stg03
  | stg04
deriving DecidableEq, Repr, Inhabited

/-- Error latch `t_sfcb_error`. -/
inductive SfcbError where
  | noero
  | bufsize
  | unkbeh
deriving DecidableEq, Repr, Inhabited

/-! ## On-flash record header (spi_flash_cb_elem_head) -/

/-- Packed 8-byte header `{uint32 magic, uint32 id}`. -/
structure ElemHead where
  uint32MagicNum : Nat
  uint32IdNum : Nat
deriving DecidableEq, Repr, Inhabited

/-- `sizeof(spi_flash_cb_elem_head)`: two packed uint32. -/
def headSize : Nat := 8

/-- Serialize a header to its 8 bytes, little-endian per field (the
implementation memcpys the host-native struct; host is little-endian). -/
def headToBytes (h : ElemHead) : List Nat :=
  [ h.uint32MagicNum % 256, h.uint32MagicNum / 256 % 256,
    h.uint32MagicNum / 65536 % 256, h.uint32MagicNum / 16777216 % 256,
    h.uint32IdNum % 256, h.uint32IdNum / 256 % 256,
    h.uint32IdNum / 65536 % 256, h.uint32IdNum / 16777216 % 256 ]

/-- Parse the first 8 bytes of a byte list as a header (memcpy into the
aligned struct). -/
def bytesToHead (bs : List Nat) : ElemHead :=
  { uint32MagicNum := bs.getD 0 0 + 256 * bs.getD 1 0 + 65536 * bs.getD 2 0
        + 16777216 * bs.getD 3 0,
    uint32IdNum := bs.getD 4 0 + 256 * bs.getD 5 0 + 65536 * bs.getD 6 0
        + 16777216 * bs.getD 7 0 }

/-! ## Queue management entry (t_sfcb_cb) and driver handle (t_sfcb) -/

/-- Queue management entry `t_sfcb_cb`. -/
structure SfcbCb where
  uint8Used : Nat := 0
  uint8MgmtValid : Nat := 0
  uint32MagicNum : Nat := 0
  uint32IdNumMax : Nat := 0
  uint32IdNumMin : Nat := 0
  uint32StartSector : Nat := 0
  uint32StopSector : Nat := 0
  uint32StartPageWrite : Nat := 0
  uint32StartPageIdMin : Nat := 0
  uint32StartPageIdMax : Nat := 0
  uint32ElemIdLastCpl : Nat := 0
  uint16NumPagesPerElem : Nat := 0
  uint16NumEntriesMax : Nat := 0
  uint16NumEntries : Nat := 0
  uint16PlFlashOfs : Nat := 0
  uint16PlSize : Nat := 0
deriving DecidableEq, Repr, Inhabited

/-- Driver handle `t_sfcb`.  `ptrCbElemPl` is the caller payload buffer
the handle points at; `uint8PtrSpi` is the shared SPI byte buffer. -/
structure Sfcb where
  uint8NumCbs : Nat := 0
  ptrCbs : List SfcbCb := []
  uint8PtrSpi : List Nat := []
  uint16SpiLen : Nat := 0
  uint16SpiMax : Nat := 0
  uint8Busy : Nat := 0
  cmd : SfcbCmd := .idle
  uint8IterCb : Nat := 0
  uint16Iter : Nat := 0
  uint32IterAdr : Nat := 0
  stage : SfcbStage := .stg00
  error : SfcbError := .noero
  ptrCbElemPl : List Nat := []
  uint16CbElemPlSize : Nat := 0
  head : ElemHead := default
  foot : ElemHead := default
  uint32LastElemAdr : Nat := 0
  uint32LastElemNum : Nat := 0
deriving DecidableEq, Repr, Inhabited

/-! ## Byte buffer helpers -/

/-- memcpy `d` into list `l` at offset `ofs` (overwriting). -/
def listWrite (l : List Nat) (ofs : Nat) (d : List Nat) : List Nat :=
  l.take ofs ++ d ++ l.drop (ofs + d.length)

/-- Write one byte at index `i`. -/
def setByte (l : List Nat) (i v : Nat) : List Nat :=
  listWrite l i [v]

/-! ## Static helpers of spi_flash_cb.c -/

/-- `sfcb_ceildivide_uint32`: dividing with always rounding up. -/
def sfcb_ceildivide_uint32 (dividend divisor : Nat) : Nat :=
  if dividend ≠ 0 then 1 + (dividend - 1) / divisor
  else (dividend + divisor - 1) / divisor

/-- `sfcb_adr32_uint8`: serialize an address into `adrBytes` bytes,
most-significant byte first. -/
def sfcb_adr32_uint8 (adr : Nat) (adrBytes : Nat) : List Nat :=
  (List.range adrBytes).map (fun i => adr / 256 ^ (adrBytes - 1 - i) % 256)

/-- `sfcb_flash_adr_head`: physical flash address of the header of
queue element `elem` of the currently iterated queue (uint32). -/
def sfcb_flash_adr_head (s : Sfcb) (elem : Nat) : Nat :=
  ((s.ptrCbs.getD s.uint8IterCb default).uint32StartSector * SFCB_FLASH_TOPO_SECTOR_SIZE
    + (s.ptrCbs.getD s.uint8IterCb default).uint16NumPagesPerElem
        * SFCB_FLASH_TOPO_PAGE_SIZE * elem) % 4294967296

/-- `sfcb_spi_get_head`: assemble the SPI packet requesting one element
header at `uint32IterAdr`. -/
def sfcb_spi_get_head (s : Sfcb) : Sfcb :=
  let len := SFCB_FLASH_TOPO_ADR_BYTE + 1 + headSize
  let buf := listWrite s.uint8PtrSpi 0 (List.replicate len 0)
  let buf := setByte buf 0 SFCB_FLASH_IST_RD_DATA
  let buf := listWrite buf 1 (sfcb_adr32_uint8 s.uint32IterAdr SFCB_FLASH_TOPO_ADR_BYTE)
  { s with uint16SpiLen := len, uint8PtrSpi := buf }

/-- `sfcb_spi_wip_poll`: returns `(true, s)` when a (new) WIP poll
packet was placed in the buffer (C return -1), `(false, s)` when the
flash is idle and the worker may continue (C return 0). -/
def sfcb_spi_wip_poll (s : Sfcb) : Bool × Sfcb :=
  if s.uint16SpiLen = 0 ∨ (s.uint8PtrSpi.getD 1 0) &&& SFCB_FLASH_MNG_WIP_MSK ≠ 0 then
    (true, { s with
      uint8PtrSpi := setByte (setByte s.uint8PtrSpi 0 SFCB_FLASH_IST_RD_STATE_REG) 1 0,
      uint16SpiLen := 2 })
  else
    (false, { s with uint16SpiLen := 0 })

/-! ## sfcb_init -/

/-- `sfcb_init`, parameterised over the flash-type constants it reads
(`sizeof(SFCB_FLASH_NAME)-1`, page size, address bytes).  Takes the
caller-provided queue array and SPI buffer. -/
def sfcb_init_topo (flashNameLen pageSize adrByte : Nat) (s : Sfcb)
    (cbMem : List SfcbCb) (cbLen : Nat) (spiMem : List Nat) (spiLen : Nat) :
    Nat × Sfcb :=
  if flashNameLen = 0 then (SFCB_E_NO_FLASH, s)
  else
    let s1 := { s with
      uint8NumCbs := cbLen, uint16SpiLen := 0, uint8Busy := 0,
      cmd := .idle, stage := .stg00,
      ptrCbs := cbMem, uint8PtrSpi := spiMem, uint16SpiMax := spiLen,
      error := .noero, ptrCbElemPl := [], uint16CbElemPlSize := 0 }
    if pageSize + adrByte + 1 > s1.uint16SpiMax then (SFCB_E_MEM, s1)
    else
      (SFCB_OK, { s1 with
        ptrCbs := s1.ptrCbs.map (fun c => { c with uint8Used := 0, uint8MgmtValid := 0 }) })

/-- `sfcb_init` for the W25Q16JV build. -/
def sfcb_init (s : Sfcb) (cbMem : List SfcbCb) (cbLen : Nat)
    (spiMem : List Nat) (spiLen : Nat) : Nat × Sfcb :=
  sfcb_init_topo SFCB_FLASH_NAME_LEN SFCB_FLASH_TOPO_PAGE_SIZE SFCB_FLASH_TOPO_ADR_BYTE
    s cbMem cbLen spiMem spiLen

/-! ## sfcb_new_cb -/

/-- Free-slot scan loop of `sfcb_new_cb`, structurally recursive on the
number `rem` of remaining loop iterations. -/
def newCbScanAux (cbs : List SfcbCb) : Nat → Nat → Nat → Nat × Nat
  | 0, i, start => (i, start)
  | rem + 1, i, start =>
    let c := cbs.getD i default
    if c.uint8Used ≠ 0 then
      newCbScanAux cbs rem (i + 1) ((c.uint32StopSector + 1) % 4294967296)
    else (i, start)

/-- Free-slot scan loop of `sfcb_new_cb`: walk slots from index `i`,
accumulating the start sector past each used slot, stopping at the
first unused slot (or at `numCbs`).  Returns `(cbNew, startSector)`. -/
def newCbScan (cbs : List SfcbCb) (numCbs i start : Nat) : Nat × Nat :=
  newCbScanAux cbs (numCbs - i) i start

/-- `sfcb_new_cb`, parameterised over page size, sector size and total
flash size.  Returns `(exit code, new handle, written *cbID)`; the out
parameter is `none` when the C function returns before writing it. -/
def sfcb_new_cb_topo (pageSize sectorSize flashSize : Nat) (s : Sfcb)
    (magicNum elemSizeByte numElems : Nat) : Nat × Sfcb × Option Nat :=
  let uint8PagesPerSector := sectorSize / pageSize % 256
  let elemTotalSize := (elemSizeByte + 2 * headSize) % 65536
  let scan := newCbScan s.ptrCbs s.uint8NumCbs 0 0
  let cbNew := scan.1
  let uint32StartSector := scan.2
  if cbNew = s.uint8NumCbs then (SFCB_E_MEM, s, none)
  else
    let c0 := s.ptrCbs.getD cbNew default
    let ppe := sfcb_ceildivide_uint32 elemTotalSize pageSize % 65536
    let uint16NumSectors :=
      max 2 (sfcb_ceildivide_uint32 ((numElems * ppe) % 4294967296) uint8PagesPerSector % 65536)
    let stopSector := (uint32StartSector + uint16NumSectors - 1) % 4294967296
    let maxEntries := (uint16NumSectors * uint8PagesPerSector) % 65536 / ppe
    let c1 := { c0 with
      uint8Used := 1,
      uint32IdNumMax := 0,
      uint32IdNumMin := 4294967295,
      uint32MagicNum := magicNum,
      uint16NumPagesPerElem := ppe,
      uint32StartSector := uint32StartSector,
      uint32StopSector := stopSector,
      uint16NumEntriesMax := maxEntries,
      uint16NumEntries := 0,
      uint16PlSize := elemSizeByte }
    let s1 := { s with ptrCbs := s.ptrCbs.set cbNew c1 }
    if (stopSector + 1) * sectorSize % 4294967296 > flashSize then
      (SFCB_E_FLASH_FULL, s1, some cbNew)
    else
      (SFCB_OK, s1, some cbNew)

/-- `sfcb_new_cb` for the W25Q16JV build. -/
def sfcb_new_cb (s : Sfcb) (magicNum elemSizeByte numElems : Nat) :
    Nat × Sfcb × Option Nat :=
  sfcb_new_cb_topo SFCB_FLASH_TOPO_PAGE_SIZE SFCB_FLASH_TOPO_SECTOR_SIZE
    SFCB_FLASH_TOPO_FLASH_SIZE s magicNum elemSizeByte numElems

/-- Index of the slot `sfcb_new_cb` allocates (first unused). -/
def newCbIdx (s : Sfcb) : Nat := (newCbScan s.ptrCbs s.uint8NumCbs 0 0).1

/-- Start sector `sfcb_new_cb` assigns to the allocated slot. -/
def newCbStart (s : Sfcb) : Nat := (newCbScan s.ptrCbs s.uint8NumCbs 0 0).2

/-- The slot contents `sfcb_new_cb` stores (W25Q16JV constants), same
arithmetic as the function body. -/
def newCbSlot (s : Sfcb) (magicNum elemSizeByte numElems : Nat) : SfcbCb :=
  let uint8PagesPerSector := SFCB_FLASH_TOPO_SECTOR_SIZE / SFCB_FLASH_TOPO_PAGE_SIZE % 256
  let elemTotalSize := (elemSizeByte + 2 * headSize) % 65536
  let ppe := sfcb_ceildivide_uint32 elemTotalSize SFCB_FLASH_TOPO_PAGE_SIZE % 65536
  let ns := max 2
    (sfcb_ceildivide_uint32 ((numElems * ppe) % 4294967296) uint8PagesPerSector % 65536)
  { s.ptrCbs.getD (newCbIdx s) default with
    uint8Used := 1, uint32IdNumMax := 0, uint32IdNumMin := 4294967295,
    uint32MagicNum := magicNum, uint16NumPagesPerElem := ppe,
    uint32StartSector := newCbStart s,
    uint32StopSector := (newCbStart s + ns - 1) % 4294967296,
    uint16NumEntriesMax := (ns * uint8PagesPerSector) % 65536 / ppe,
    uint16NumEntries := 0, uint16PlSize := elemSizeByte }

/-! ## sfcb_mkcb -/

/-- First loop of `sfcb_mkcb` (structural on remaining iterations):
`uint8IterCb` is re-assigned to `i` after every slot that is used and
has valid management data; the loop breaks at the first slot that is
unused or has invalid management data. -/
def mkcbFindFirstAux (cbs : List SfcbCb) : Nat → Nat → Nat → Nat
  | 0, _, acc => acc
  | rem + 1, i, acc =>
    let c := cbs.getD i default
    if c.uint8Used = 0 ∨ c.uint8MgmtValid = 0 then acc
    else mkcbFindFirstAux cbs rem (i + 1) i

/-- First loop of `sfcb_mkcb` over slots `0 ≤ i < numCbs`. -/
def mkcbFindFirst (cbs : List SfcbCb) (numCbs i acc : Nat) : Nat :=
  mkcbFindFirstAux cbs (numCbs - i) i acc

/-- Second loop of `sfcb_mkcb` (structural on remaining iterations):
starting at `i`, reset `id_min`, `id_max` and `pl_flash_ofs` of every
used-but-invalid slot; stop at the first unused slot. -/
def mkcbResetDirtyAux : Nat → List SfcbCb → Nat → List SfcbCb
  | 0, cbs, _ => cbs
  | rem + 1, cbs, i =>
    let c := cbs.getD i default
    if c.uint8Used = 0 then cbs
    else
      let cbs1 :=
        if c.uint8MgmtValid = 0 then
          cbs.set i { c with
            uint32IdNumMax := 0, uint32IdNumMin := 4294967295, uint16PlFlashOfs := 0 }
        else cbs
      mkcbResetDirtyAux rem cbs1 (i + 1)

/-- Second loop of `sfcb_mkcb` over slots `i ≤ j < numCbs`. -/
def mkcbResetDirty (cbs : List SfcbCb) (numCbs i : Nat) : List SfcbCb :=
  mkcbResetDirtyAux (numCbs - i) cbs i

/-- `sfcb_mkcb`: submit the build/scan job. -/
def sfcb_mkcb (s : Sfcb) : Nat × Sfcb :=
  if s.uint8Busy ≠ 0 then (SFCB_E_WKR_BSY, s)
  else if (s.ptrCbs.getD 0 default).uint8Used = 0 then (SFCB_E_NO_CB_Q, s)
  else
    let iterCb := mkcbFindFirst s.ptrCbs s.uint8NumCbs 0 0
    let cbs1 := mkcbResetDirty s.ptrCbs s.uint8NumCbs iterCb
    (SFCB_OK, { s with
      uint8IterCb := iterCb, ptrCbs := cbs1,
      cmd := .mkcb, uint16Iter := 0, stage := .stg00,
      error := .noero, uint8Busy := 1 })

/-! ## sfcb_add -/

/-- `sfcb_add`: submit an append job ( `data` is the caller payload). -/
def sfcb_add (s : Sfcb) (cbID : Nat) (data : List Nat) (len : Nat) : Nat × Sfcb :=
  if s.uint8Busy ≠ 0 then (SFCB_E_WKR_BSY, s)
  else if ¬ (cbID < s.uint8NumCbs) then (SFCB_E_NO_CB_Q, s)
  else
    let c := s.ptrCbs.getD cbID default
    if c.uint8Used = 0 ∨ c.uint16PlFlashOfs ≥ c.uint16PlSize + headSize then
      (SFCB_E_WKR_REQ, s)
    else if len + c.uint16PlFlashOfs > c.uint16NumPagesPerElem * SFCB_FLASH_TOPO_PAGE_SIZE then
      (SFCB_E_MEM, s)
    else
      (SFCB_OK, { s with
        uint8IterCb := cbID,
        ptrCbs := s.ptrCbs.set cbID { c with uint8MgmtValid := 0 },
        uint32IterAdr := (c.uint32StartPageWrite + c.uint16PlFlashOfs) % 4294967296,
        ptrCbElemPl := data,
        uint16CbElemPlSize := len,
        uint16Iter := 0,
        uint8Busy := 1, cmd := .add, stage := .stg00, error := .noero })

/-! ## sfcb_get_last -/

/-- `sfcb_get_last`: submit a read-last-element job.  Returns
`(exit code, new handle, value stored in *elemID)`. -/
def sfcb_get_last (s : Sfcb) (cbID : Nat) (data : List Nat) (len : Nat) :
    Nat × Sfcb × Nat :=
  if s.uint8Busy ≠ 0 then (SFCB_E_WKR_BSY, s, 0)
  else if ¬ (cbID < s.uint8NumCbs) then (SFCB_E_NO_CB_Q, s, 0)
  else
    let c := s.ptrCbs.getD cbID default
    if c.uint8Used = 0 ∨ c.uint8MgmtValid = 0 then (SFCB_E_WKR_REQ, s, 0)
    else if c.uint16NumEntries = 0 then (SFCB_E_CB_Q_MTY, s, 0)
    else
      let len1 :=
        if len + headSize > c.uint16NumPagesPerElem * SFCB_FLASH_TOPO_PAGE_SIZE then
          (c.uint16NumPagesPerElem * SFCB_FLASH_TOPO_PAGE_SIZE + 65536 - headSize) % 65536
        else len
      (SFCB_OK,
       { s with
         ptrCbElemPl := data,
         uint16CbElemPlSize := len1,
         uint32IterAdr := (c.uint32StartPageIdMax + headSize) % 4294967296,
         uint16Iter := 0,
         uint8Busy := 1, cmd := .get, stage := .stg00, error := .noero },
       c.uint32ElemIdLastCpl)

/-! ## sfcb_flash_read -/

/-- `sfcb_flash_read`: submit a raw flash read job. -/
def sfcb_flash_read (s : Sfcb) (adr : Nat) (data : List Nat) (len : Nat) : Nat × Sfcb :=
  if s.uint8Busy ≠ 0 then (SFCB_E_WKR_BSY, s)
  else
    (SFCB_OK, { s with
      ptrCbElemPl := data,
      uint16CbElemPlSize := len,
      uint32IterAdr := adr % 4294967296,
      uint8Busy := 1, cmd := .raw, stage := .stg00, error := .noero })

/-! ## Accessors -/

/-- `sfcb_busy`. -/
def sfcb_busy (s : Sfcb) : Bool := s.uint8Busy ≠ 0

/-- `sfcb_spi_len`. -/
def sfcb_spi_len (s : Sfcb) : Nat := s.uint16SpiLen

/-- `sfcb_idmax`. -/
def sfcb_idmax (s : Sfcb) (cbID : Nat) : Nat :=
  if (s.ptrCbs.getD cbID default).uint8Used = 0 then 0
  else (s.ptrCbs.getD cbID default).uint32IdNumMax

/-! ## sfcb_worker

One Lean function per `case SFCB_STGxx` of each command; C
fall-throughs become calls of the next stage's function. -/

/-- Common completion transition: zero packet length, go idle. -/
def idleState (s : Sfcb) : Sfcb :=
  { s with uint16SpiLen := 0, cmd := .idle, stage := .stg00, uint8Busy := 0 }

/-- MKCB stage 0: WIP check, then request the first header of the
current circular buffer element. -/
def mkcbStg00 (s : Sfcb) : Sfcb :=
  match sfcb_spi_wip_poll s with
  | (true, s1) => s1
  | (false, s1) =>
    let s2 := { s1 with uint32IterAdr := sfcb_flash_adr_head s1 s1.uint16Iter }
    let s3 := sfcb_spi_get_head s2
    { s3 with stage := .stg01 }

/-- MKCB stage 1: check header, find empty page for new element,
request the footer of the current queue element. -/
def mkcbStg01 (s : Sfcb) : Sfcb :=
  let cbi := s.uint8IterCb
  let c := s.ptrCbs.getD cbi default
  let hd := bytesToHead (s.uint8PtrSpi.drop (SFCB_FLASH_TOPO_ADR_BYTE + 1))
  let s0 := { s with head := hd }
  let s1 :=
    if hd.uint32MagicNum = c.uint32MagicNum then
      let c1 := { c with uint16NumEntries := (c.uint16NumEntries + 1) % 65536 }
      let p :=
        if hd.uint32IdNum > c1.uint32IdNumMax then
          ({ c1 with uint32IdNumMax := hd.uint32IdNum },
           { s0 with uint32LastElemAdr := s0.uint32IterAdr,
                     uint32LastElemNum := hd.uint32IdNum })
        else (c1, s0)
      let c3 :=
        if hd.uint32IdNum < p.1.uint32IdNumMin then
          { p.1 with uint32IdNumMin := hd.uint32IdNum,
                     uint32StartPageIdMin := p.2.uint32IterAdr }
        else p.1
      { p.2 with ptrCbs := p.2.ptrCbs.set cbi c3 }
    else
      if c.uint8MgmtValid = 0 then
        let good := ((List.range headSize).map
            (fun i => s0.uint8PtrSpi.getD (SFCB_FLASH_TOPO_ADR_BYTE + 1 + i) 0)).all
            (fun b => b == 255)
        if good then
          let cFree := { c with uint32StartPageWrite := s0.uint32IterAdr, uint8MgmtValid := 1 }
          { s0 with ptrCbs := s0.ptrCbs.set cbi cFree }
        else s0
      else s0
  let s2 := { s1 with uint32IterAdr :=
      (sfcb_flash_adr_head s1 ((s1.uint16Iter + 1) % 65536)
        + 4294967296 - headSize) % 4294967296 }
  let s3 := sfcb_spi_get_head s2
  { s3 with stage := .stg02 }

/-- Look-ahead loop of MKCB stage 2 (structural on remaining
iterations): from index `i`, going idle at the first unused slot
(`(true, _)`), else continuing with the first slot with invalid
management data, else with the unchanged iterator. -/
def mkcbLookAheadAux (cbs : List SfcbCb) : Nat → Nat → Nat → Bool × Nat
  | 0, _, iterCb => (false, iterCb)
  | rem + 1, i, iterCb =>
    let c := cbs.getD i default
    if c.uint8Used = 0 then (true, iterCb)
    else if c.uint8MgmtValid = 0 then (false, i)
    else mkcbLookAheadAux cbs rem (i + 1) iterCb

/-- Look-ahead loop of MKCB stage 2 over slots `i ≤ j < numCbs`. -/
def mkcbLookAhead (cbs : List SfcbCb) (numCbs i iterCb : Nat) : Bool × Nat :=
  mkcbLookAheadAux cbs (numCbs - i) i iterCb

/-- MKCB stage 2: check footer (committing the last-complete-element
anchor), request the next header, then advance the element iterator,
switch to the next queue, go idle, or start a sector erase.
The C `memcmp` of footer and header is modelled as equality of the two
parsed `ElemHead` values (identical for byte values < 256). -/
def mkcbStg02 (s : Sfcb) : Sfcb :=
  let cbi := s.uint8IterCb
  let c := s.ptrCbs.getD cbi default
  let ft := bytesToHead (s.uint8PtrSpi.drop (SFCB_FLASH_TOPO_ADR_BYTE + 1))
  let s0 := { s with foot := ft }
  let s1 :=
    if ft = s0.head ∧ ft.uint32MagicNum = c.uint32MagicNum then
      let cAnchor := { c with uint32StartPageIdMax := s0.uint32LastElemAdr,
                              uint32ElemIdLastCpl := s0.uint32LastElemNum }
      { s0 with ptrCbs := s0.ptrCbs.set cbi cAnchor }
    else s0
  let s2 := { s1 with uint32IterAdr := sfcb_flash_adr_head s1 ((s1.uint16Iter + 1) % 65536) }
  let s3 := sfcb_spi_get_head s2
  let c3 := s3.ptrCbs.getD cbi default
  if s3.uint16Iter < c3.uint16NumEntriesMax - 1 then
    { s3 with uint16Iter := (s3.uint16Iter + 1) % 65536, stage := .stg01 }
  else
    if c3.uint8MgmtValid ≠ 0 then
      let s4 := { s3 with uint16Iter := 0, uint8IterCb := (s3.uint8IterCb + 1) % 256 }
      match mkcbLookAhead s4.ptrCbs s4.uint8NumCbs s4.uint8IterCb s4.uint8IterCb with
      | (true, _) => idleState s4
      | (false, it) =>
        let s5 := { s4 with uint8IterCb := it }
        if ¬ (s5.uint8IterCb < s5.uint8NumCbs) then idleState s5
        else s5
    else
      { s3 with uint8PtrSpi := setByte s3.uint8PtrSpi 0 SFCB_FLASH_IST_WR_ENA,
                uint16SpiLen := 1, stage := .stg03 }

/-- MKCB stage 3: assemble the sector-erase command for the sector of
the queue element with the lowest id.  `~(SECTOR_SIZE-1)` as `uint32`
is `2^32 - SECTOR_SIZE` for a power-of-two sector size. -/
def mkcbStg03 (s : Sfcb) : Sfcb :=
  let t0 := (s.ptrCbs.getD s.uint8IterCb default).uint32StartPageIdMin
  let t1 := t0 &&& (4294967296 - SFCB_FLASH_TOPO_SECTOR_SIZE)
  let buf := setByte s.uint8PtrSpi 0 SFCB_FLASH_IST_ERASE_SECTOR
  let buf := listWrite buf 1 (sfcb_adr32_uint8 t1 SFCB_FLASH_TOPO_ADR_BYTE)
  { s with uint8PtrSpi := buf, uint16SpiLen := SFCB_FLASH_TOPO_ADR_BYTE + 1,
           stage := .stg04 }

/-- MKCB stage 4: wait for the sector erase via a WIP poll packet and
restart the scan of the current queue at element 0. -/
def mkcbStg04 (s : Sfcb) : Sfcb :=
  { s with uint16Iter := 0,
           uint8PtrSpi := setByte (setByte s.uint8PtrSpi 0 SFCB_FLASH_IST_RD_STATE_REG) 1 0,
           uint16SpiLen := 2, stage := .stg00 }

/-- ADD stage 1: speculatively place the write-enable opcode, then
decide between header/footer write, payload write, and completion. -/
def addStg01 (s : Sfcb) : Sfcb :=
  let c := s.ptrCbs.getD s.uint8IterCb default
  let s0 := { s with uint8PtrSpi := setByte s.uint8PtrSpi 0 SFCB_FLASH_IST_WR_ENA,
                     uint16SpiLen := 1 }
  if s0.uint32IterAdr = c.uint32StartPageWrite
     ∨ c.uint16PlFlashOfs = c.uint16PlSize + headSize then
    { s0 with stage := .stg02 }
  else if s0.uint16Iter < s0.uint16CbElemPlSize then
    { s0 with stage := .stg03 }
  else idleState s0

/-- ADD stage 0: WIP check, on ready fall through to stage 1. -/
def addStg00 (s : Sfcb) : Sfcb :=
  match sfcb_spi_wip_poll s with
  | (true, s1) => s1
  | (false, s1) => addStg01 { s1 with stage := .stg01 }

/-- ADD stage 2: write header or footer page `{magic, id_max + 1}`. -/
def addStg02 (s : Sfcb) : Sfcb :=
  let cbi := s.uint8IterCb
  let c := s.ptrCbs.getD cbi default
  let hd : ElemHead := { uint32MagicNum := c.uint32MagicNum,
                         uint32IdNum := (c.uint32IdNumMax + 1) % 4294967296 }
  let s0 := { s with
    head := hd,
    uint8PtrSpi := setByte s.uint8PtrSpi 0 SFCB_FLASH_IST_WR_PAGE,
    uint16SpiLen := 1 }
  let p :=
    if c.uint16PlFlashOfs = c.uint16PlSize + headSize then
      ({ s0 with uint32IterAdr :=
           (c.uint32StartPageWrite
             + c.uint16NumPagesPerElem * SFCB_FLASH_TOPO_PAGE_SIZE
             + 4294967296 - headSize) % 4294967296 },
       { c with uint16PlFlashOfs := (c.uint16PlFlashOfs + 1) % 65536 })
    else
      (s0, { c with uint16PlFlashOfs := (c.uint16PlFlashOfs + headSize) % 65536 })
  let s2 := { p.1 with ptrCbs := p.1.ptrCbs.set cbi p.2 }
  let buf := listWrite s2.uint8PtrSpi s2.uint16SpiLen
               (sfcb_adr32_uint8 s2.uint32IterAdr SFCB_FLASH_TOPO_ADR_BYTE)
  let len2 := (s2.uint16SpiLen + SFCB_FLASH_TOPO_ADR_BYTE) % 65536
  let buf2 := listWrite buf len2 (headToBytes s2.head)
  let len3 := (len2 + headSize) % 65536
  { s2 with uint8PtrSpi := buf2, uint16SpiLen := len3,
            uint32IterAdr := (s2.uint32IterAdr + headSize) % 4294967296,
            stage := .stg04 }

/-- ADD stage 3: payload page-program.  The C code computes the copy
length from the `int` difference `CbElemPlSize - Iter` and casts to
`uint16_t`; both operands are 16-bit fields. -/
def addStg03 (s : Sfcb) : Sfcb :=
  let cbi := s.uint8IterCb
  let buf := setByte s.uint8PtrSpi 0 SFCB_FLASH_IST_WR_PAGE
  let buf := listWrite buf 1 (sfcb_adr32_uint8 s.uint32IterAdr SFCB_FLASH_TOPO_ADR_BYTE)
  let len0 := SFCB_FLASH_TOPO_ADR_BYTE + 1
  let avail := SFCB_FLASH_TOPO_PAGE_SIZE - s.uint32IterAdr % SFCB_FLASH_TOPO_PAGE_SIZE
  let cpy :=
    if s.uint16Iter ≤ s.uint16CbElemPlSize then
      if s.uint16CbElemPlSize - s.uint16Iter > avail then avail
      else s.uint16CbElemPlSize - s.uint16Iter
    else (s.uint16CbElemPlSize + 65536 - s.uint16Iter) % 65536
  let buf2 := listWrite buf len0 ((s.ptrCbElemPl.drop s.uint16Iter).take cpy)
  let len1 := (len0 + cpy) % 65536
  let c := s.ptrCbs.getD cbi default
  let c1 := { c with uint16PlFlashOfs :=
      (c.uint16PlFlashOfs + len1 - SFCB_FLASH_TOPO_ADR_BYTE - 1) % 65536 }
  { s with uint8PtrSpi := buf2, uint16SpiLen := len1,
           uint16Iter := (s.uint16Iter + cpy) % 65536,
           ptrCbs := s.ptrCbs.set cbi c1,
           uint32IterAdr :=
             (s.uint32IterAdr + len1 - SFCB_FLASH_TOPO_ADR_BYTE - 1) % 4294967296,
           stage := .stg04 }

/-- ADD stage 4: zero the packet so stage 0 builds a WIP poll. -/
def addStg04 (s : Sfcb) : Sfcb :=
  { s with uint16SpiLen := 0, stage := .stg00 }

/-- GET stage 2: request the next chunk, or finish. -/
def getStg02 (s : Sfcb) : Sfcb :=
  if s.uint16Iter < s.uint16CbElemPlSize then
    let cpy := min SFCB_FLASH_TOPO_PAGE_SIZE (s.uint16CbElemPlSize - s.uint16Iter)
    let len := (cpy + SFCB_FLASH_TOPO_ADR_BYTE + 1) % 65536
    let buf := listWrite s.uint8PtrSpi 0 (List.replicate len 0)
    let buf := setByte buf 0 SFCB_FLASH_IST_RD_DATA
    let buf := listWrite buf 1 (sfcb_adr32_uint8 s.uint32IterAdr SFCB_FLASH_TOPO_ADR_BYTE)
    { s with uint8PtrSpi := buf, uint16SpiLen := len, stage := .stg01 }
  else idleState s

/-- GET stage 1: copy a received chunk to the payload buffer, fall
through to stage 2. -/
def getStg01 (s : Sfcb) : Sfcb :=
  let s1 :=
    if s.uint16SpiLen ≠ 0 then
      let cpy := (s.uint16SpiLen + 65536 - SFCB_FLASH_TOPO_ADR_BYTE - 1) % 65536
      { s with ptrCbElemPl := listWrite s.ptrCbElemPl s.uint16Iter
                 ((s.uint8PtrSpi.drop (SFCB_FLASH_TOPO_ADR_BYTE + 1)).take cpy),
               uint16Iter := (s.uint16Iter + cpy) % 65536,
               uint32IterAdr := (s.uint32IterAdr + cpy) % 4294967296 }
    else s
  getStg02 { s1 with stage := .stg02 }

/-- GET stage 0: WIP check, on ready fall through. -/
def getStg00 (s : Sfcb) : Sfcb :=
  match sfcb_spi_wip_poll s with
  | (true, s1) => s1
  | (false, s1) => getStg01 { s1 with stage := .stg01 }

/-- RAW stage 1: prepare raw read.  Mirrors the C code faithfully: when
the SPI buffer is too small it latches `SFCB_E_BUFSIZE` and sets the
idle flags, but the missing `return` lets it continue and assemble the
read packet anyway. -/
def rawStg01 (s : Sfcb) : Sfcb :=
  let s0 :=
    if s.uint16SpiMax < s.uint16CbElemPlSize + SFCB_FLASH_TOPO_ADR_BYTE + 1 then
      { s with uint8Busy := 0, cmd := .idle, stage := .stg00, error := .bufsize }
    else s
  let len := (s0.uint16CbElemPlSize + SFCB_FLASH_TOPO_ADR_BYTE + 1) % 65536
  let buf := listWrite s0.uint8PtrSpi 0 (List.replicate len 0)
  let buf := setByte buf 0 SFCB_FLASH_IST_RD_DATA
  let buf := listWrite buf 1 (sfcb_adr32_uint8 s0.uint32IterAdr SFCB_FLASH_TOPO_ADR_BYTE)
  { s0 with uint8PtrSpi := buf, uint16SpiLen := len, stage := .stg02 }

/-- RAW stage 0: WIP check, on ready fall through. -/
def rawStg00 (s : Sfcb) : Sfcb :=
  match sfcb_spi_wip_poll s with
  | (true, s1) => s1
  | (false, s1) => rawStg01 { s1 with stage := .stg01 }

/-- RAW stage 2: copy data back to the caller buffer and finish. -/
def rawStg02 (s : Sfcb) : Sfcb :=
  let d := (s.uint8PtrSpi.drop (SFCB_FLASH_TOPO_ADR_BYTE + 1)).take s.uint16CbElemPlSize
  idleState { s with ptrCbElemPl := listWrite s.ptrCbElemPl 0 d }

/-- `sfcb_worker`: one polled invocation of the driver state machine. -/
def sfcb_worker (s : Sfcb) : Sfcb :=
  match s.cmd with
  | .idle => s
  | .mkcb =>
    match s.stage with
    | .stg00 => mkcbStg00 s
    | .stg01 => mkcbStg01 s
    | .stg02 => mkcbStg02 s
    | .stg03 => mkcbStg03 s
    | .stg04 => mkcbStg04 s
  | .add =>
    match s.stage with
    | .stg00 => addStg00 s
    | .stg01 => addStg01 s
    | .stg02 => addStg02 s
    | .stg03 => addStg03 s
    | .stg04 => addStg04 s
  | .get =>
    match s.stage with
    | .stg00 => getStg00 s
    | .stg01 => getStg01 s
    | .stg02 => getStg02 s
    | _ => { s with error := .unkbeh }
  | .raw =>
    match s.stage with
    | .stg00 => rawStg00 s
    | .stg01 => rawStg01 s
    | .stg02 => rawStg02 s
    | _ => { s with error := .unkbeh }

/-! ## Flash device model and driver/transport run loop

The SPI transport exchanges the first `uint16SpiLen` bytes of the
shared buffer with the flash device and places the response bytes back
into the same buffer.  The flash is a byte-addressed map; `0xFF` is the
erased state.  The status register always reads 0 (no write in
progress): program and erase complete instantly in the model. -/

/-- Flash contents: byte address to byte value. -/
def Flash : Type := Nat → Nat

/-- Fully erased flash. -/
def flashAllFF : Flash := fun _ => 255

/-- Address field of a command packet: `SFCB_FLASH_TOPO_ADR_BYTE` bytes
after the opcode, most-significant byte first. -/
def txAdr (tx : List Nat) : Nat :=
  tx.getD 1 0 * 65536 + tx.getD 2 0 * 256 + tx.getD 3 0

/-- Page-program `d` at `adr` (model: plain overwrite; the driver only
programs erased bytes). -/
def flashProg (fl : Flash) (adr : Nat) (d : List Nat) : Flash :=
  fun a => if adr ≤ a ∧ a < adr + d.length then d.getD (a - adr) 255 else fl a

/-- Erase the sector beginning at `adr`. -/
def flashEraseSector (fl : Flash) (adr : Nat) : Flash :=
  fun a => if adr ≤ a ∧ a < adr + SFCB_FLASH_TOPO_SECTOR_SIZE then 255 else fl a

/-- One SPI transaction against the flash device: returns the new flash
contents and the response bytes (same length as the request). -/
def spiExchange (fl : Flash) (tx : List Nat) : Flash × List Nat :=
  let op := tx.getD 0 0
  if op = SFCB_FLASH_IST_RD_STATE_REG then (fl, [op, 0])
  else if op = SFCB_FLASH_IST_RD_DATA then
    (fl, tx.take (SFCB_FLASH_TOPO_ADR_BYTE + 1)
      ++ (List.range (tx.length - (SFCB_FLASH_TOPO_ADR_BYTE + 1))).map
           (fun i => fl (txAdr tx + i)))
  else if op = SFCB_FLASH_IST_WR_PAGE then
    (flashProg fl (txAdr tx) (tx.drop (SFCB_FLASH_TOPO_ADR_BYTE + 1)), tx)
  else if op = SFCB_FLASH_IST_ERASE_SECTOR then
    (flashEraseSector fl (txAdr tx), tx)
  else (fl, tx)

/-- One driver poll followed (when a packet was produced) by the SPI
transaction of that packet. -/
def mstep (s : Sfcb) (fl : Flash) : Sfcb × Flash :=
  let s1 := sfcb_worker s
  if s1.uint16SpiLen = 0 then (s1, fl)
  else
    let ex := spiExchange fl (s1.uint8PtrSpi.take s1.uint16SpiLen)
    ({ s1 with uint8PtrSpi := ex.2 }, ex.1)

/-- Poll the worker (with transport service) until the driver goes
idle or the fuel runs out. -/
def mrun : Nat → Sfcb → Flash → Sfcb × Flash
  | 0, s, fl => (s, fl)
  | fuel + 1, s, fl =>
    if s.uint8Busy = 0 then (s, fl)
    else
      let st := mstep s fl
      mrun fuel st.1 st.2

/-! ## Definitions written from the specification text

These mirror the wording of the specification (not the C code); the
theorems compare them with the behaviour of the embedded functions. -/

/-- Spec 4.1: `pages_per_elem = ceil((pl_size + 2·header_size)/page_size)`. -/
def specPagesPerElem (plSize : Nat) : Nat :=
  (plSize + 2 * headSize + SFCB_FLASH_TOPO_PAGE_SIZE - 1) / SFCB_FLASH_TOPO_PAGE_SIZE

/-- Pages per sector of the selected flash. -/
def specPagesPerSector : Nat :=
  SFCB_FLASH_TOPO_SECTOR_SIZE / SFCB_FLASH_TOPO_PAGE_SIZE

/-- Spec 4.1: `num_sectors = max(2, ceil(num_elems·pages_per_elem / pages_per_sector))`. -/
def specNumSectors (plSize numElems : Nat) : Nat :=
  max 2 ((numElems * specPagesPerElem plSize + specPagesPerSector - 1) / specPagesPerSector)

/-- Claim C5's cap: one record's span minus two headers. -/
def specGetLastCapTwoHeads (pagesPerElem : Nat) : Nat :=
  pagesPerElem * SFCB_FLASH_TOPO_PAGE_SIZE - 2 * headSize

/-- Header bytes of record slot `e` of a queue starting at sector
`startSector` with `pagesPerElem` pages per record. -/
def slotHeadBytes (fl : Flash) (startSector pagesPerElem e : Nat) : List Nat :=
  (List.range headSize).map (fun i =>
    fl (startSector * SFCB_FLASH_TOPO_SECTOR_SIZE
        + pagesPerElem * SFCB_FLASH_TOPO_PAGE_SIZE * e + i))

/-- Footer bytes of record slot `e` (last `headSize` bytes of the slot). -/
def slotFootBytes (fl : Flash) (startSector pagesPerElem e : Nat) : List Nat :=
  (List.range headSize).map (fun i =>
    fl (startSector * SFCB_FLASH_TOPO_SECTOR_SIZE
        + pagesPerElem * SFCB_FLASH_TOPO_PAGE_SIZE * (e + 1) - headSize + i))

/-- Claim C3 (spec invariant I1): number of record slots among the
first `maxEntries` of the queue whose header magic equals the queue
magic and whose header equals the footer. -/
def specCompleteCount (fl : Flash) (startSector pagesPerElem maxEntries magic : Nat) : Nat :=
  ((List.range maxEntries).filter (fun e =>
    decide ((bytesToHead (slotHeadBytes fl startSector pagesPerElem e)).uint32MagicNum = magic
      ∧ slotHeadBytes fl startSector pagesPerElem e
          = slotFootBytes fl startSector pagesPerElem e))).length

/-- Number of record slots among the first `maxEntries` of the queue
whose header magic equals the queue magic (footer ignored): what the
scan actually counts. -/
def specMagicCount (fl : Flash) (startSector pagesPerElem maxEntries magic : Nat) : Nat :=
  ((List.range maxEntries).filter (fun e =>
    decide ((bytesToHead (slotHeadBytes fl startSector pagesPerElem e)).uint32MagicNum
      = magic))).length

/-! ## Concrete scenario states (shared by counterexamples/witnesses)

The scenarios follow the repository's unit test: W25Q16JV flash, a
266-byte SPI buffer, queue magic `0x47114711`. -/

/-- 266-byte zeroed SPI buffer. -/
def scnSpiBuf : List Nat := List.replicate 266 0

/-- Handle after `sfcb_init` with five queue slots. -/
def scnInit5 : Sfcb :=
  (sfcb_init {} (List.replicate 5 ({} : SfcbCb)) 5 scnSpiBuf 266).2

/-- Handle after `sfcb_init` with one queue slot. -/
def scnInit1 : Sfcb :=
  (sfcb_init {} [({} : SfcbCb)] 1 scnSpiBuf 266).2

/-- One queue, magic 0x47114711, payload 244 bytes, two requested
elements: `pages_per_elem = 2`, `max_entries = 16`, sectors 0..1. -/
def scnQ0 : Sfcb := (sfcb_new_cb scnInit1 0x47114711 244 2).2.1

/-- Driver and flash after a full `sfcb_mkcb` scan over erased flash. -/
def scnScanned : Sfcb × Flash := mrun 64 (sfcb_mkcb scnQ0).2 flashAllFF

/-- 244-byte payload `0xA5 ...`. -/
def scnPayload : List Nat := List.replicate 244 165

/-- Driver and flash after appending one full 244-byte record. -/
def scnAdded : Sfcb × Flash :=
  mrun 64 (sfcb_add scnScanned.1 0 scnPayload 244).2 scnScanned.2

/-- Driver and flash after the rescan following the first append. -/
def scnRescanned : Sfcb × Flash := mrun 64 (sfcb_mkcb scnAdded.1).2 scnAdded.2

/-- Driver and flash after appending a second full record. -/
def scnAdded2 : Sfcb × Flash :=
  mrun 64 (sfcb_add scnRescanned.1 0 scnPayload 244).2 scnRescanned.2

/-- Driver and flash after a partial append of 100 payload bytes (the
record stays open: `pl_flash_ofs = 108 < 252`, `mgmt_valid = 0`). -/
def scnPartial : Sfcb × Flash :=
  mrun 64 (sfcb_add scnScanned.1 0 (List.replicate 100 1) 100).2 scnScanned.2

/-- Flash image for the C3 counterexample: record slot 0 carries a
valid header `{magic 0x47114711, id 1}` but an erased (all-0xFF)
footer — an incomplete record; everything else is erased. -/
def flC3 : Flash := fun a => [0x11, 0x47, 0x11, 0x47, 1, 0, 0, 0].getD a 255

/-- Driver state after a complete `sfcb_mkcb` run over `flC3`. -/
def scnScanC3 : Sfcb × Flash := mrun 64 (sfcb_mkcb scnQ0).2 flC3

/-- Queue slot of `scnStg03`: open record, header already written. -/
def scnStg03Slot : SfcbCb :=
  { uint8Used := 1, uint16NumPagesPerElem := 2, uint16NumEntriesMax := 16,
    uint16PlSize := 244, uint16PlFlashOfs := 8 }

/-- A payload page-program state (ADD command, stage 3): fresh record
at flash address 8 (after the header write), 244 payload bytes pending. -/
def scnStg03 : Sfcb :=
  { cmd := .add, stage := .stg03, uint8Busy := 1, uint8NumCbs := 1,
    uint16Iter := 0, uint16CbElemPlSize := 244, uint32IterAdr := 8,
    uint8IterCb := 0, ptrCbs := [scnStg03Slot],
    ptrCbElemPl := scnPayload, uint8PtrSpi := scnSpiBuf, uint16SpiMax := 266 }

/-- Queue slot of `scnC7`: full queue (no free record found during the
scan), management data still invalid, oldest record at page address
`0x1234`. -/
def scnC7Slot : SfcbCb :=
  { uint8Used := 1, uint8MgmtValid := 0, uint32MagicNum := 0x47114711,
    uint16NumPagesPerElem := 2, uint16NumEntriesMax := 16,
    uint32StartPageIdMin := 0x1234 }

/-- A `mkcb` scan state at stage 2 whose queue was fully scanned with
no free record slot: the next worker polls must erase the sector of the
oldest record. -/
def scnC7 : Sfcb :=
  { cmd := .mkcb, stage := .stg02, uint8Busy := 1, uint8NumCbs := 1,
    uint16Iter := 15, uint8IterCb := 0, ptrCbs := [scnC7Slot],
    uint8PtrSpi := scnSpiBuf, uint16SpiMax := 266 }

/-- Queue slot of `scnC8`: magic `0x47114711`, cached `id_max = 7`. -/
def scnC8Slot : SfcbCb :=
  { uint8Used := 1, uint8MgmtValid := 1, uint32MagicNum := 0x47114711,
    uint32IdNumMax := 7, uint16NumPagesPerElem := 2,
    uint16NumEntriesMax := 16, uint16PlSize := 244, uint16PlFlashOfs := 0 }

/-- An append state at stage 2 (header write pending), fresh record. -/
def scnC8 : Sfcb :=
  { cmd := .add, stage := .stg02, uint8Busy := 1, uint8NumCbs := 1,
    uint16Iter := 0, uint16CbElemPlSize := 244, uint32IterAdr := 0,
    uint8IterCb := 0, ptrCbs := [scnC8Slot],
    ptrCbElemPl := scnPayload, uint8PtrSpi := scnSpiBuf, uint16SpiMax := 266 }

/-- Flash byte address of the header of record slot `e` of a queue at
`startSector` with `pagesPerElem` pages per record. -/
def scanHeadAdr (startSector pagesPerElem e : Nat) : Nat :=
  startSector * SFCB_FLASH_TOPO_SECTOR_SIZE
    + pagesPerElem * SFCB_FLASH_TOPO_PAGE_SIZE * e

/-- SPI buffer contents after the header read of slot `e`. -/
def scanHeadRsp (fl : Flash) (startSector pagesPerElem e : Nat) : List Nat :=
  SFCB_FLASH_IST_RD_DATA
    :: sfcb_adr32_uint8 (scanHeadAdr startSector pagesPerElem e) 3
    ++ slotHeadBytes fl startSector pagesPerElem e

/-- SPI buffer contents after the footer read of slot `e`. -/
def scanFootRsp (fl : Flash) (startSector pagesPerElem e : Nat) : List Nat :=
  SFCB_FLASH_IST_RD_DATA
    :: sfcb_adr32_uint8
        (scanHeadAdr startSector pagesPerElem (e + 1) - headSize) 3
    ++ slotFootBytes fl startSector pagesPerElem e

/-- Canonical driver state of a single-queue `mkcb` scan about to
process the header of slot `e` (already read into the SPI buffer). -/
def scanState (fl : Flash) (c : SfcbCb) (e : Nat) (hd ft : ElemHead)
    (lA lN : Nat) : Sfcb :=
  { uint8NumCbs := 1, ptrCbs := [c],
    uint8PtrSpi := scanHeadRsp fl c.uint32StartSector c.uint16NumPagesPerElem e,
    uint16SpiLen := SFCB_FLASH_TOPO_ADR_BYTE + 1 + headSize,
    uint8Busy := 1, cmd := .mkcb, uint8IterCb := 0, uint16Iter := e,
    uint32IterAdr := scanHeadAdr c.uint32StartSector c.uint16NumPagesPerElem e,
    stage := .stg01, head := hd, foot := ft,
    uint32LastElemAdr := lA, uint32LastElemNum := lN }

/-- Canonical driver state about to process the footer of slot `e`. -/
def scanFootState (fl : Flash) (c : SfcbCb) (e : Nat) (hd ft : ElemHead)
    (lA lN : Nat) : Sfcb :=
  { uint8NumCbs := 1, ptrCbs := [c],
    uint8PtrSpi := scanFootRsp fl c.uint32StartSector c.uint16NumPagesPerElem e,
    uint16SpiLen := SFCB_FLASH_TOPO_ADR_BYTE + 1 + headSize,
    uint8Busy := 1, cmd := .mkcb, uint8IterCb := 0, uint16Iter := e,
    uint32IterAdr :=
      scanHeadAdr c.uint32StartSector c.uint16NumPagesPerElem (e + 1) - headSize,
    stage := .stg02, head := hd, foot := ft,
    uint32LastElemAdr := lA, uint32LastElemNum := lN }

/-- Driver state from which a single-queue `mkcb` scan starts. -/
def scanStart (c : SfcbCb) : Sfcb :=
  { uint8NumCbs := 1, ptrCbs := [c], uint8Busy := 1, cmd := .mkcb,
    uint8IterCb := 0, uint16Iter := 0, stage := .stg00 }

/-- Number of header-magic matches among record slots
`e, ..., e + k - 1`. -/
def scanMagicBits (fl : Flash) (startSector pagesPerElem magic : Nat) :
    Nat → Nat → Nat
  | 0, _ => 0
  | k + 1, e =>
    (if (bytesToHead
          (slotHeadBytes fl startSector pagesPerElem e)).uint32MagicNum
        = magic then 1 else 0)
      + scanMagicBits fl startSector pagesPerElem magic k (e + 1)

/-- Canonical driver state that has just issued the header read of
slot `e` (packet in the buffer, response pending). -/
def scanHeadReq (c : SfcbCb) (e : Nat) (hd ft : ElemHead)
    (lA lN : Nat) : Sfcb :=
  { uint8NumCbs := 1, ptrCbs := [c],
    uint8PtrSpi := SFCB_FLASH_IST_RD_DATA
      :: sfcb_adr32_uint8
          (scanHeadAdr c.uint32StartSector c.uint16NumPagesPerElem e) 3
      ++ List.replicate 8 0,
    uint16SpiLen := SFCB_FLASH_TOPO_ADR_BYTE + 1 + headSize,
    uint8Busy := 1, cmd := .mkcb, uint8IterCb := 0, uint16Iter := e,
    uint32IterAdr := scanHeadAdr c.uint32StartSector c.uint16NumPagesPerElem e,
    stage := .stg01, head := hd, foot := ft,
    uint32LastElemAdr := lA, uint32LastElemNum := lN }

/-- Canonical driver state that has just issued the footer read of
slot `e`. -/
def scanFootReq (c : SfcbCb) (e : Nat) (hd ft : ElemHead)
    (lA lN : Nat) : Sfcb :=
  { uint8NumCbs := 1, ptrCbs := [c],
    uint8PtrSpi := SFCB_FLASH_IST_RD_DATA
      :: sfcb_adr32_uint8
          (scanHeadAdr c.uint32StartSector c.uint16NumPagesPerElem (e + 1)
            - headSize) 3
      ++ List.replicate 8 0,
    uint16SpiLen := SFCB_FLASH_TOPO_ADR_BYTE + 1 + headSize,
    uint8Busy := 1, cmd := .mkcb, uint8IterCb := 0, uint16Iter := e,
    uint32IterAdr :=
      scanHeadAdr c.uint32StartSector c.uint16NumPagesPerElem (e + 1) - headSize,
    stage := .stg02, head := hd, foot := ft,
    uint32LastElemAdr := lA, uint32LastElemNum := lN }

/-- Slot of `scnC6Wrap`: a used queue whose recorded stop sector is
just below `2^20`, so the next queue's capacity product wraps. -/
def scnC6WrapSlot : SfcbCb :=
  { uint8Used := 1, uint32StopSector := 1048575 }

/-- A handle whose next allocation gets `stop_sector = 0x100001`:
`(stop_sector+1)*sector_size` wraps mod `2^32` to a value within the
device size, so `sfcb_new_cb` returns OK. -/
def scnC6Wrap : Sfcb :=
  { uint8NumCbs := 2, ptrCbs := [scnC6WrapSlot, {}] }

/-! ## Claim C2 -/

/-- C2: the claim says an oversized raw read "latches the buffer-size
error and returns to idle without issuing any SPI I/O (spi_len stays 0
and no read packet is assembled)".  The code accepts the request, first
emits a WIP status poll (SPI I/O), and — lacking a `return` after
latching `SFCB_E_BUFSIZE` and setting the idle flags — still assembles
the oversized read packet: `spi_len` becomes `len + address_bytes + 1 =
304 > 266` with the read opcode in the buffer and the stage left at
stage 2.  Concrete run: 266-byte buffer, `sfcb_flash_read(adr 0, len
300)`. -/
theorem C2_raw_read_bufsize_bug :
    (sfcb_flash_read scnInit1 0 (List.replicate 300 0) 300).1 = SFCB_OK ∧
    (let s1 := sfcb_worker (sfcb_flash_read scnInit1 0 (List.replicate 300 0) 300).2
     s1.uint16SpiLen = 2 ∧ s1.uint8PtrSpi.take 2 = [5, 0] ∧
     (let s2 := sfcb_worker { s1 with
        uint8PtrSpi := (spiExchange flashAllFF (s1.uint8PtrSpi.take s1.uint16SpiLen)).2 }
      s2.error = SfcbError.bufsize ∧ s2.cmd = SfcbCmd.idle ∧ s2.uint8Busy = 0 ∧
      s2.uint16SpiLen = 304 ∧ s2.uint8PtrSpi.getD 0 0 = SFCB_FLASH_IST_RD_DATA ∧
      s2.stage = SfcbStage.stg02 ∧ 266 < 304)) := by
  decide

/-! ## Claim C1 -/

/-- C1 counterexample: with the W25Q16JV geometry, the call
`sfcb_new_cb(magic 0x47114711, pl_size 244, num_elems 32)` on a fresh
five-slot handle returns OK, but the slot gets `pages_per_elem = 2`
(244 + 16 = 260 bytes need two 256-byte pages), `num_sectors = 4`
(`stop_sector = 3`) and `max_entries = 32` — not `pages_per_elem = 1`,
`num_sectors = 2`, `stop_sector = 1` as the claim states. -/
theorem C1_counterexample :
    (sfcb_new_cb scnInit5 0x47114711 244 32).1 = SFCB_OK ∧
    (let slot := (sfcb_new_cb scnInit5 0x47114711 244 32).2.1.ptrCbs.getD 0 default
     slot.uint16NumPagesPerElem = 2 ∧ slot.uint32StartSector = 0 ∧
     slot.uint32StopSector = 3 ∧ slot.uint16NumEntriesMax = 32 ∧
     ¬ (slot.uint16NumPagesPerElem = 1 ∧ slot.uint32StopSector = 1)) := by
  decide

/-! ## Claim C3 -/

/-- C3 counterexample: one queue (magic 0x47114711, `pages_per_elem =
2`, `max_entries = 16`, sectors 0..1), flash `flC3` holding one
incomplete record (valid header magic and id 1, erased footer).  After
`sfcb_mkcb` runs to completion the management field `entries = 1`,
while the number of record slots whose header magic matches and whose
header equals the footer is 0: the scan counts header-magic matches
without requiring header = footer. -/
theorem C3_counterexample :
    scnScanC3.1.uint8Busy = 0 ∧ scnScanC3.1.cmd = SfcbCmd.idle ∧
    (scnScanC3.1.ptrCbs.getD 0 default).uint16NumEntries = 1 ∧
    specCompleteCount flC3 0 2 16 0x47114711 = 0 ∧
    specMagicCount flC3 0 2 16 0x47114711 = 1 ∧
    (scnScanC3.1.ptrCbs.getD 0 default).uint16NumEntries ≠
      specCompleteCount flC3 0 2 16 0x47114711 := by
  decide

/-! ## Claim C4 -/

/-- C4 counterexample: after a partial append the queue has
`mgmt_valid = 0` (cleared by the first `sfcb_add`) and `pl_flash_ofs =
108 < 252`; the claim's precondition (which includes `mgmt_valid` set)
is false, yet `sfcb_add` accepts the follow-up request: it returns OK
and arms the worker.  The code never checks `mgmt_valid`. -/
theorem C4_counterexample :
    (scnPartial.1.ptrCbs.getD 0 default).uint8MgmtValid = 0 ∧
    (scnPartial.1.ptrCbs.getD 0 default).uint16PlFlashOfs = 108 ∧
    scnPartial.1.uint8Busy = 0 ∧
    (sfcb_add scnPartial.1 0 (List.replicate 10 2) 10).1 = SFCB_OK ∧
    (sfcb_add scnPartial.1 0 (List.replicate 10 2) 10).2.uint8Busy = 1 ∧
    (sfcb_add scnPartial.1 0 (List.replicate 10 2) 10).2.cmd = SfcbCmd.add := by
  decide

/-! ## Claim C5 -/

/-- C5 counterexample: queue with `pages_per_elem = 2` (record span 512
bytes) after one complete record; `sfcb_get_last` with requested length
600 stores `uint16CbElemPlSize = 504 = 2·256 − 8` (record span minus
ONE header), not the claimed cap "one payload's worth minus two
headers" (512 − 16 = 496, and neither `pl_size = 244` nor
`pl_size − 16`). -/
theorem C5_counterexample :
    (scnRescanned.1.ptrCbs.getD 0 default).uint16NumPagesPerElem = 2 ∧
    (sfcb_get_last scnRescanned.1 0 (List.replicate 600 0) 600).1 = SFCB_OK ∧
    (sfcb_get_last scnRescanned.1 0 (List.replicate 600 0) 600).2.1.uint16CbElemPlSize
      = 504 ∧
    specGetLastCapTwoHeads 2 = 496 ∧
    (sfcb_get_last scnRescanned.1 0 (List.replicate 600 0) 600).2.1.uint16CbElemPlSize
      ≠ min 600 (specGetLastCapTwoHeads 2) := by
  decide

/-! ## Claim C6 -/

/-- C6 counterexample: with the empty flash type selected (all topology
constants 0, `SFCB_FLASH_NAME` empty), `sfcb_new_cb` on a one-slot
handle does not fail with the no-flash error: the function has no such
check (it lives in `sfcb_init`) and returns OK here.  (In C this call
even divides by the zero page size — undefined behaviour; the embedding
uses total division.  Independently of that, `sfcb_new_cb` contains no
path returning `SFCB_E_NO_FLASH`.)  Moreover the flash-full comparison
is computed in `uint32`: with a previous queue ending at sector
`0xFFFFF` the new queue gets `stop_sector = 0x100001`, whose exact
capacity product exceeds the 2 MiB device, yet the wrapped product is
`8192` and the call returns OK — "stop_sector exceeds the device size"
alone does not characterise the flash-full error. -/
theorem C6_counterexample :
    (sfcb_new_cb_topo 0 0 0 { uint8NumCbs := 1, ptrCbs := [{}] } 1 4 1).1 = SFCB_OK ∧
    (sfcb_new_cb_topo 0 0 0 { uint8NumCbs := 1, ptrCbs := [{}] } 1 4 1).1
      ≠ SFCB_E_NO_FLASH ∧
    (sfcb_init_topo SFCB_FLASH_NAME_LEN_EMPTY 0 0 {} [] 0 [] 0).1 = SFCB_E_NO_FLASH ∧
    (sfcb_new_cb scnC6Wrap 0x47114711 244 2).1 = SFCB_OK ∧
    (((sfcb_new_cb scnC6Wrap 0x47114711 244 2).2.1.ptrCbs.getD 1
          default).uint32StopSector + 1) * SFCB_FLASH_TOPO_SECTOR_SIZE
      > SFCB_FLASH_TOPO_FLASH_SIZE := by
  decide

/-! ## Characterization of the free-slot scan loop -/

lemma newCbScanAux_char (cbs : List SfcbCb) : ∀ (rem i start : Nat),
    i ≤ (newCbScanAux cbs rem i start).1
    ∧ (newCbScanAux cbs rem i start).1 ≤ i + rem
    ∧ (∀ j, i ≤ j → j < (newCbScanAux cbs rem i start).1 →
        (cbs.getD j default).uint8Used ≠ 0)
    ∧ ((newCbScanAux cbs rem i start).1 < i + rem →
        (cbs.getD (newCbScanAux cbs rem i start).1 default).uint8Used = 0)
    ∧ ((newCbScanAux cbs rem i start).1 = i → (newCbScanAux cbs rem i start).2 = start)
    ∧ (i < (newCbScanAux cbs rem i start).1 →
        (newCbScanAux cbs rem i start).2 =
          ((cbs.getD ((newCbScanAux cbs rem i start).1 - 1) default).uint32StopSector + 1)
            % 4294967296) := by
  intro rem
  induction rem with
  | zero =>
    intro i start
    simp only [newCbScanAux]
    exact ⟨le_refl i, by omega, fun j h1 h2 => absurd h2 (by omega),
      fun h => absurd h (by omega), fun _ => trivial, fun h => absurd h (by omega)⟩
  | succ rem ih =>
    intro i start
    by_cases h : (cbs.getD i default).uint8Used ≠ 0
    · have hrec : newCbScanAux cbs (rem + 1) i start
          = newCbScanAux cbs rem (i + 1)
              (((cbs.getD i default).uint32StopSector + 1) % 4294967296) := by
        simp only [newCbScanAux]
        rw [if_pos h]
      rw [hrec]
      obtain ⟨h1, h2, h3, h4, h5, h6⟩ :=
        ih (i + 1) (((cbs.getD i default).uint32StopSector + 1) % 4294967296)
      refine ⟨by omega, by omega, ?_, fun hlt => h4 (by omega), fun he => absurd he (by omega), ?_⟩
      · intro j hj hj2
        rcases Nat.eq_or_lt_of_le hj with rfl | hj3
        · exact h
        · exact h3 j hj3 hj2
      · intro hf
        rcases Nat.eq_or_lt_of_le h1 with he | hlt
        · rw [h5 he.symm, ← he]
          simp
        · exact h6 hlt
    · have hrec : newCbScanAux cbs (rem + 1) i start = (i, start) := by
        simp only [newCbScanAux]
        rw [if_neg h]
      rw [hrec]
      simp only [not_not] at h
      exact ⟨le_refl i, by omega, fun j hj hj2 => absurd (lt_of_le_of_lt hj hj2) (lt_irrefl i),
        fun _ => h, fun _ => rfl, fun hf => absurd hf (lt_irrefl i)⟩

lemma newCbScan_char (cbs : List SfcbCb) (numCbs : Nat) :
    (newCbScan cbs numCbs 0 0).1 ≤ numCbs
    ∧ (∀ j, j < (newCbScan cbs numCbs 0 0).1 → (cbs.getD j default).uint8Used ≠ 0)
    ∧ ((newCbScan cbs numCbs 0 0).1 < numCbs →
        (cbs.getD (newCbScan cbs numCbs 0 0).1 default).uint8Used = 0)
    ∧ ((newCbScan cbs numCbs 0 0).1 = 0 → (newCbScan cbs numCbs 0 0).2 = 0)
    ∧ (0 < (newCbScan cbs numCbs 0 0).1 →
        (newCbScan cbs numCbs 0 0).2 =
          ((cbs.getD ((newCbScan cbs numCbs 0 0).1 - 1) default).uint32StopSector + 1)
            % 4294967296) := by
  obtain ⟨h1, h2, h3, h4, h5, h6⟩ := newCbScanAux_char cbs numCbs 0 0
  unfold newCbScan
  simp only [Nat.sub_zero]
  exact ⟨by omega, fun j hj => h3 j (Nat.zero_le j) hj, fun hlt => h4 (by omega), h5, h6⟩

/-- Rounding-up division agrees with `(a + b - 1) / b`. -/
lemma ceildivide_eq (a b : Nat) (hb : 0 < b) :
    sfcb_ceildivide_uint32 a b = (a + b - 1) / b := by
  unfold sfcb_ceildivide_uint32
  rcases Nat.eq_zero_or_pos a with rfl | ha
  · simp
  · rw [if_pos (by omega)]
    have h1 : a + b - 1 = (a - 1) + b := by omega
    rw [h1, Nat.add_div_right _ hb]
    omega

/-- `sfcb_new_cb` result when a free slot exists: the slot written is
`newCbSlot`, the out parameter is written, and the exit code depends
only on the flash-capacity check. -/
lemma sfcb_new_cb_result (s : Sfcb) (magic pl n : Nat)
    (hmem : newCbIdx s ≠ s.uint8NumCbs) :
    sfcb_new_cb s magic pl n =
      (if ((newCbSlot s magic pl n).uint32StopSector + 1) * SFCB_FLASH_TOPO_SECTOR_SIZE
          % 4294967296 > SFCB_FLASH_TOPO_FLASH_SIZE then SFCB_E_FLASH_FULL else SFCB_OK,
       { s with ptrCbs := s.ptrCbs.set (newCbIdx s) (newCbSlot s magic pl n) },
       some (newCbIdx s)) := by
  have hmem' : ¬ (newCbScan s.ptrCbs s.uint8NumCbs 0 0).1 = s.uint8NumCbs := hmem
  unfold sfcb_new_cb sfcb_new_cb_topo newCbSlot newCbIdx newCbStart
  simp only []
  rw [if_neg hmem']
  split_ifs <;> rfl

/-- `sfcb_new_cb` result when every slot is used. -/
lemma sfcb_new_cb_full (s : Sfcb) (magic pl n : Nat)
    (hmem : newCbIdx s = s.uint8NumCbs) :
    sfcb_new_cb s magic pl n = (SFCB_E_MEM, s, none) := by
  have hmem' : (newCbScan s.ptrCbs s.uint8NumCbs 0 0).1 = s.uint8NumCbs := hmem
  unfold sfcb_new_cb sfcb_new_cb_topo
  simp only []
  rw [if_pos hmem']

/-- Arithmetic of the allocated slot under the no-overflow conditions. -/
lemma newCbSlot_arith (s : Sfcb) (magic pl n : Nat)
    (hn : n < 65536)
    (hpl : pl + 2 * headSize < 65536)
    (hns : specNumSectors pl n < 65536)
    (hnowrap : newCbStart s + specNumSectors pl n ≤ 4294967296) :
    (newCbSlot s magic pl n).uint16NumPagesPerElem = specPagesPerElem pl
    ∧ (newCbSlot s magic pl n).uint32StartSector = newCbStart s
    ∧ (newCbSlot s magic pl n).uint32StopSector = newCbStart s + specNumSectors pl n - 1
    ∧ (newCbSlot s magic pl n).uint16NumEntriesMax
        = (specNumSectors pl n * specPagesPerSector) % 65536 / specPagesPerElem pl
    ∧ (newCbSlot s magic pl n).uint32MagicNum = magic
    ∧ (newCbSlot s magic pl n).uint8Used = 1
    ∧ (newCbSlot s magic pl n).uint16PlSize = pl := by
  have hpps : SFCB_FLASH_TOPO_SECTOR_SIZE / SFCB_FLASH_TOPO_PAGE_SIZE % 256
      = specPagesPerSector := by decide
  have hpps16 : specPagesPerSector = 16 := by decide
  have hCeil1 : sfcb_ceildivide_uint32 ((pl + 2 * headSize) % 65536)
      SFCB_FLASH_TOPO_PAGE_SIZE % 65536 = specPagesPerElem pl := by
    rw [Nat.mod_eq_of_lt hpl, ceildivide_eq _ _ (by decide)]
    have hb : specPagesPerElem pl < 65536 := by
      unfold specPagesPerElem
      rw [Nat.div_lt_iff_lt_mul (by decide : 0 < SFCB_FLASH_TOPO_PAGE_SIZE)]
      have : (65536 : Nat) * SFCB_FLASH_TOPO_PAGE_SIZE = 16777216 := by decide
      omega
    calc (pl + 2 * headSize + SFCB_FLASH_TOPO_PAGE_SIZE - 1)
          / SFCB_FLASH_TOPO_PAGE_SIZE % 65536
        = specPagesPerElem pl % 65536 := rfl
      _ = specPagesPerElem pl := Nat.mod_eq_of_lt hb
  have hppeBound : specPagesPerElem pl ≤ 257 := by
    unfold specPagesPerElem
    rw [Nat.div_le_iff_le_mul_add_pred (by decide : 0 < SFCB_FLASH_TOPO_PAGE_SIZE)]
    have : (257 : Nat) * SFCB_FLASH_TOPO_PAGE_SIZE = 65792 := by decide
    have h8 : headSize = 8 := by decide
    have h256 : SFCB_FLASH_TOPO_PAGE_SIZE = 256 := by decide
    omega
  have hprodlt : n * specPagesPerElem pl < 4294967296 := by
    calc n * specPagesPerElem pl ≤ 65535 * 257 :=
          Nat.mul_le_mul (by omega) hppeBound
      _ < 4294967296 := by decide
  have hCeil2 : sfcb_ceildivide_uint32 ((n * specPagesPerElem pl) % 4294967296)
      specPagesPerSector % 65536
      = (n * specPagesPerElem pl + specPagesPerSector - 1) / specPagesPerSector := by
    rw [Nat.mod_eq_of_lt hprodlt, ceildivide_eq _ _ (by decide)]
    have hinner : (n * specPagesPerElem pl + specPagesPerSector - 1) / specPagesPerSector
        < 65536 := by
      have : (n * specPagesPerElem pl + specPagesPerSector - 1) / specPagesPerSector
          ≤ specNumSectors pl n := le_max_right _ _ |>.trans (le_refl _) |>.trans (le_of_eq rfl)
      omega
    exact Nat.mod_eq_of_lt hinner
  have hNs : max 2 (sfcb_ceildivide_uint32 ((n * specPagesPerElem pl) % 4294967296)
      specPagesPerSector % 65536) = specNumSectors pl n := by
    rw [hCeil2]; rfl
  constructor
  · simp only [newCbSlot]
    exact hCeil1
  constructor
  · simp only [newCbSlot]
  constructor
  · simp only [newCbSlot]
    rw [hpps, hCeil1, hNs]
    have h2 : 2 ≤ specNumSectors pl n := le_max_left _ _
    exact Nat.mod_eq_of_lt (by omega)
  constructor
  · simp only [newCbSlot]
    rw [hpps, hCeil1, hNs]
  constructor
  · simp only [newCbSlot]
  constructor
  · simp only [newCbSlot]
  · simp only [newCbSlot]

/-- C1 (amended): for every `sfcb_new_cb` call that returns OK — with
the queue geometry small enough that none of the code's `uint16` or
`uint32` casts truncate or wrap (in particular the `uint32` product of
the flash-capacity check) — the allocated slot satisfies the spec
formulas
`pages_per_elem = ceil((pl_size + 2·header_size)/page_size)`,
`stop_sector = start_sector + num_sectors − 1` with `num_sectors =
max(2, ceil(num_elems·pages_per_elem/pages_per_sector))`,
`max_entries = num_sectors·pages_per_sector/pages_per_elem`, and
`start_sector` is 0 for the first queue and the previous used slot's
`stop_sector + 1` otherwise. -/
theorem C1_new_cb_geometry (s : Sfcb) (magic pl n : Nat)
    (hlen : s.uint8NumCbs ≤ s.ptrCbs.length)
    (hn : n < 65536)
    (hpl : pl + 2 * headSize < 65536)
    (hns : specNumSectors pl n < 65536)
    (hnowrap : newCbStart s + specNumSectors pl n ≤ 4294967296)
    (hprod : (newCbStart s + specNumSectors pl n) * SFCB_FLASH_TOPO_SECTOR_SIZE
        < 4294967296)
    (hok : (sfcb_new_cb s magic pl n).1 = SFCB_OK) :
    ((sfcb_new_cb s magic pl n).2.1.ptrCbs.getD (newCbIdx s) default).uint16NumPagesPerElem
      = specPagesPerElem pl
    ∧ ((sfcb_new_cb s magic pl n).2.1.ptrCbs.getD (newCbIdx s) default).uint32StartSector
      = newCbStart s
    ∧ ((sfcb_new_cb s magic pl n).2.1.ptrCbs.getD (newCbIdx s) default).uint32StopSector
      = newCbStart s + specNumSectors pl n - 1
    ∧ ((sfcb_new_cb s magic pl n).2.1.ptrCbs.getD (newCbIdx s) default).uint16NumEntriesMax
      = specNumSectors pl n * specPagesPerSector / specPagesPerElem pl
    ∧ ((sfcb_new_cb s magic pl n).2.1.ptrCbs.getD (newCbIdx s) default).uint32MagicNum
      = magic
    ∧ (newCbIdx s = 0 → newCbStart s = 0)
    ∧ (∀ j, j < newCbIdx s → (s.ptrCbs.getD j default).uint8Used ≠ 0)
    ∧ (0 < newCbIdx s → newCbStart s =
        ((s.ptrCbs.getD (newCbIdx s - 1) default).uint32StopSector + 1) % 4294967296) := by
  obtain ⟨hc1, hc2, hc3, hc4, hc5⟩ := newCbScan_char s.ptrCbs s.uint8NumCbs
  have hmem : newCbIdx s ≠ s.uint8NumCbs := by
    intro he
    rw [sfcb_new_cb_full s magic pl n he] at hok
    have hok' : SFCB_E_MEM = SFCB_OK := hok
    exact absurd hok' (by decide)
  have hres := sfcb_new_cb_result s magic pl n hmem
  have hkloc : newCbIdx s < s.ptrCbs.length :=
    lt_of_lt_of_le (lt_of_le_of_ne hc1 hmem) hlen
  have hslot : (sfcb_new_cb s magic pl n).2.1.ptrCbs.getD (newCbIdx s) default
      = newCbSlot s magic pl n := by
    rw [hres]
    simp [List.getD_eq_getElem?_getD, List.getElem?_set_self, hkloc]
  obtain ⟨ha1, ha2, ha3, ha4, ha5, ha6, ha7⟩ :=
    newCbSlot_arith s magic pl n hn hpl hns hnowrap
  have hstop1 : (newCbSlot s magic pl n).uint32StopSector + 1
      = newCbStart s + specNumSectors pl n := by
    rw [ha3]
    have h2 : 2 ≤ specNumSectors pl n := le_max_left _ _
    omega
  have hmodeq : ((newCbSlot s magic pl n).uint32StopSector + 1)
        * SFCB_FLASH_TOPO_SECTOR_SIZE % 4294967296
      = ((newCbSlot s magic pl n).uint32StopSector + 1)
        * SFCB_FLASH_TOPO_SECTOR_SIZE := by
    rw [hstop1]
    exact Nat.mod_eq_of_lt hprod
  have hcap : ((newCbSlot s magic pl n).uint32StopSector + 1) * SFCB_FLASH_TOPO_SECTOR_SIZE
      ≤ SFCB_FLASH_TOPO_FLASH_SIZE := by
    by_contra hgt
    rw [hres] at hok
    simp only [] at hok
    rw [if_pos (by rw [hmodeq]; omega)] at hok
    exact absurd hok (by decide)
  have hnsle : specNumSectors pl n ≤ 512 := by
    rw [ha3] at hcap
    have h2 : 2 ≤ specNumSectors pl n := le_max_left _ _
    have hss : SFCB_FLASH_TOPO_SECTOR_SIZE = 4096 := by decide
    have hfs : SFCB_FLASH_TOPO_FLASH_SIZE = 2097152 := by decide
    rw [hss, hfs] at hcap
    omega
  have ha4' : (newCbSlot s magic pl n).uint16NumEntriesMax
      = specNumSectors pl n * specPagesPerSector / specPagesPerElem pl := by
    rw [ha4]
    have hpps16 : specPagesPerSector = 16 := by decide
    rw [hpps16]
    congr 1
    exact Nat.mod_eq_of_lt (by omega)
  rw [hslot]
  exact ⟨ha1, ha2, ha3, ha4', ha5, hc4, hc2, hc5⟩

/-- C1 witness: the `W25Q16JV` scenario queue (magic 0x47114711,
pl_size 244, num_elems 32) on a fresh five-slot handle. -/
theorem C1_new_cb_geometry_witness :
    ((sfcb_new_cb scnInit5 0x47114711 244 32).2.1.ptrCbs.getD (newCbIdx scnInit5)
        default).uint16NumPagesPerElem = specPagesPerElem 244
    ∧ ((sfcb_new_cb scnInit5 0x47114711 244 32).2.1.ptrCbs.getD (newCbIdx scnInit5)
        default).uint32StopSector = newCbStart scnInit5 + specNumSectors 244 32 - 1 :=
  ⟨(C1_new_cb_geometry scnInit5 0x47114711 244 32 (by decide) (by decide) (by decide)
      (by decide) (by decide) (by decide) (by decide)).1,
   (C1_new_cb_geometry scnInit5 0x47114711 244 32 (by decide) (by decide) (by decide)
      (by decide) (by decide) (by decide) (by decide)).2.2.1⟩

/-- C6 (amended): the no-flash rejection for an unset flash type is
performed by `sfcb_init` (which returns `SFCB_E_NO_FLASH` and leaves
the handle untouched when the empty flash type is compiled in), not by
`sfcb_new_cb`; `sfcb_new_cb` itself fails with the memory error exactly
when no free queue slot exists, fails with the flash-full error exactly
when a free slot exists and the `uint32` (mod `2^32`) product
`(stop_sector + 1) * sector_size` exceeds the device size — the
comparison wraps, so an oversized `stop_sector` whose product wraps to
a small value escapes the check — and never returns the no-flash
error. -/
theorem C6_error_codes (pageSize adrByte cbLen spiLen : Nat) (s s2 : Sfcb)
    (cbMem : List SfcbCb) (spiMem : List Nat) (magic pl n : Nat) :
    sfcb_init_topo SFCB_FLASH_NAME_LEN_EMPTY pageSize adrByte s2 cbMem cbLen spiMem spiLen
      = (SFCB_E_NO_FLASH, s2)
    ∧ ((sfcb_new_cb s magic pl n).1 = SFCB_E_MEM ↔ newCbIdx s = s.uint8NumCbs)
    ∧ ((sfcb_new_cb s magic pl n).1 = SFCB_E_FLASH_FULL ↔
        newCbIdx s ≠ s.uint8NumCbs ∧
        ((newCbSlot s magic pl n).uint32StopSector + 1) * SFCB_FLASH_TOPO_SECTOR_SIZE
          % 4294967296 > SFCB_FLASH_TOPO_FLASH_SIZE)
    ∧ (sfcb_new_cb s magic pl n).1 ≠ SFCB_E_NO_FLASH := by
  refine ⟨by rfl, ?_⟩
  by_cases hmem : newCbIdx s = s.uint8NumCbs
  · rw [sfcb_new_cb_full s magic pl n hmem]
    refine ⟨⟨fun _ => hmem, fun _ => rfl⟩, ⟨?_, ?_⟩, ?_⟩
    · intro h
      have h' : SFCB_E_MEM = SFCB_E_FLASH_FULL := h
      exact absurd h' (by decide)
    · rintro ⟨hne, _⟩
      exact absurd hmem hne
    · intro h
      have h' : SFCB_E_MEM = SFCB_E_NO_FLASH := h
      exact absurd h' (by decide)
  · rw [sfcb_new_cb_result s magic pl n hmem]
    by_cases hcond : ((newCbSlot s magic pl n).uint32StopSector + 1)
        * SFCB_FLASH_TOPO_SECTOR_SIZE % 4294967296 > SFCB_FLASH_TOPO_FLASH_SIZE
    · rw [if_pos hcond]
      refine ⟨⟨?_, ?_⟩, ⟨fun _ => ⟨hmem, hcond⟩, fun _ => rfl⟩, ?_⟩
      · intro h
        have h' : SFCB_E_FLASH_FULL = SFCB_E_MEM := h
        exact absurd h' (by decide)
      · intro h
        exact absurd h hmem
      · intro h
        have h' : SFCB_E_FLASH_FULL = SFCB_E_NO_FLASH := h
        exact absurd h' (by decide)
    · rw [if_neg hcond]
      refine ⟨⟨?_, ?_⟩, ⟨?_, ?_⟩, ?_⟩
      · intro h
        have h' : SFCB_OK = SFCB_E_MEM := h
        exact absurd h' (by decide)
      · intro h
        exact absurd h hmem
      · intro h
        have h' : SFCB_OK = SFCB_E_FLASH_FULL := h
        exact absurd h' (by decide)
      · rintro ⟨_, hc⟩
        exact absurd hc hcond
      · intro h
        have h' : SFCB_OK = SFCB_E_NO_FLASH := h
        exact absurd h' (by decide)

/-- C6 witness: the memory-error case on a fully occupied one-slot
handle, plus the no-flash rejection of `sfcb_init` with the empty
flash type. -/
theorem C6_error_codes_witness :
    (sfcb_new_cb { uint8NumCbs := 1, ptrCbs := [{ uint8Used := 1 }] } 1 4 1).1
      = SFCB_E_MEM
    ∧ sfcb_init_topo SFCB_FLASH_NAME_LEN_EMPTY 256 3 {} [] 1 [] 8
      = (SFCB_E_NO_FLASH, {}) :=
  ⟨(C6_error_codes 256 3 1 8 { uint8NumCbs := 1, ptrCbs := [{ uint8Used := 1 }] } {}
      [] [] 1 4 1).2.1.mpr (by decide),
   (C6_error_codes 256 3 1 8 {} {} [] [] 1 4 1).1⟩

lemma getD_set_self (l : List SfcbCb) (i : Nat) (v : SfcbCb) (h : i < l.length) :
    (l.set i v).getD i default = v := by
  simp [List.getD_eq_getElem?_getD, List.getElem?_set_self, h]

lemma getD_set_ne (l : List SfcbCb) (i j : Nat) (v : SfcbCb) (h : i ≠ j) :
    (l.set i v).getD j default = l.getD j default := by
  simp [List.getD_eq_getElem?_getD, List.getElem?_set_ne, h]

/-- The free-slot scan stops exactly at the first unused slot. -/
lemma newCbScan_at (cbs : List SfcbCb) (numCbs k : Nat) (hk : k < numCbs)
    (hused : ∀ j, j < k → (cbs.getD j default).uint8Used ≠ 0)
    (hfree : (cbs.getD k default).uint8Used = 0) :
    (newCbScan cbs numCbs 0 0).1 = k := by
  obtain ⟨hc1, hc2, hc3, hc4, hc5⟩ := newCbScan_char cbs numCbs
  rcases lt_trichotomy (newCbScan cbs numCbs 0 0).1 k with h | h | h
  · exact absurd (hc3 (by omega)) (hused _ h)
  · exact h
  · exact absurd hfree (hc2 k h)

/-- C10: when `sfcb_new_cb` returns the flash-full error, the handle
has already been mutated and is not rolled back — the slot is marked
used and keeps the computed geometry, `*cbID` has been written — and a
subsequent `sfcb_new_cb` allocates the slot after the oversized queue,
with `start_sector` = oversized queue's `stop_sector + 1`. -/
theorem C10_flash_full_mutation (s : Sfcb) (magic pl n : Nat)
    (hlen : s.uint8NumCbs ≤ s.ptrCbs.length)
    (hfull : (sfcb_new_cb s magic pl n).1 = SFCB_E_FLASH_FULL) :
    (sfcb_new_cb s magic pl n).2.2 = some (newCbIdx s)
    ∧ (sfcb_new_cb s magic pl n).2.1.ptrCbs.getD (newCbIdx s) default
      = newCbSlot s magic pl n
    ∧ (newCbSlot s magic pl n).uint8Used = 1
    ∧ (newCbSlot s magic pl n).uint32MagicNum = magic
    ∧ (newCbSlot s magic pl n).uint16PlSize = pl
    ∧ (newCbIdx s + 1 < s.uint8NumCbs →
        (s.ptrCbs.getD (newCbIdx s + 1) default).uint8Used = 0 →
        newCbIdx (sfcb_new_cb s magic pl n).2.1 = newCbIdx s + 1 ∧
        newCbStart (sfcb_new_cb s magic pl n).2.1 =
          ((newCbSlot s magic pl n).uint32StopSector + 1) % 4294967296) := by
  obtain ⟨hc1, hc2, hc3, hc4, hc5⟩ := newCbScan_char s.ptrCbs s.uint8NumCbs
  have hmem : newCbIdx s ≠ s.uint8NumCbs := by
    intro he
    rw [sfcb_new_cb_full s magic pl n he] at hfull
    have h' : SFCB_E_MEM = SFCB_E_FLASH_FULL := hfull
    exact absurd h' (by decide)
  have hres := sfcb_new_cb_result s magic pl n hmem
  have hkloc : newCbIdx s < s.ptrCbs.length :=
    lt_of_lt_of_le (lt_of_le_of_ne hc1 hmem) hlen
  have hslot : (sfcb_new_cb s magic pl n).2.1.ptrCbs.getD (newCbIdx s) default
      = newCbSlot s magic pl n := by
    rw [hres]
    exact getD_set_self _ _ _ hkloc
  refine ⟨by rw [hres], hslot, by simp [newCbSlot], by simp [newCbSlot],
    by simp [newCbSlot], ?_⟩
  intro hnext hnextfree
  have hcbs2 : (sfcb_new_cb s magic pl n).2.1.ptrCbs
      = s.ptrCbs.set (newCbIdx s) (newCbSlot s magic pl n) := by
    rw [hres]
  have hnum2 : (sfcb_new_cb s magic pl n).2.1.uint8NumCbs = s.uint8NumCbs := by
    rw [hres]
  have husedAll : ∀ j, j < newCbIdx s + 1 →
      (((sfcb_new_cb s magic pl n).2.1.ptrCbs).getD j default).uint8Used ≠ 0 := by
    intro j hj
    rw [hcbs2]
    rcases Nat.lt_or_ge j (newCbIdx s) with hlt | hge
    · rw [getD_set_ne _ _ _ _ (by omega)]
      exact hc2 j hlt
    · have hje : j = newCbIdx s := by omega
      subst hje
      rw [getD_set_self _ _ _ hkloc]
      simp [newCbSlot]
  have hfree2 : (((sfcb_new_cb s magic pl n).2.1.ptrCbs).getD (newCbIdx s + 1)
      default).uint8Used = 0 := by
    rw [hcbs2, getD_set_ne _ _ _ _ (by omega)]
    exact hnextfree
  have hidx2 : newCbIdx (sfcb_new_cb s magic pl n).2.1 = newCbIdx s + 1 := by
    unfold newCbIdx
    rw [hnum2]
    exact newCbScan_at _ _ _ hnext husedAll hfree2
  obtain ⟨hd1, hd2, hd3, hd4, hd5⟩ :=
    newCbScan_char (sfcb_new_cb s magic pl n).2.1.ptrCbs
      (sfcb_new_cb s magic pl n).2.1.uint8NumCbs
  refine ⟨hidx2, ?_⟩
  have hidx2u : (newCbScan (sfcb_new_cb s magic pl n).2.1.ptrCbs
      (sfcb_new_cb s magic pl n).2.1.uint8NumCbs 0 0).1 = newCbIdx s + 1 := hidx2
  have hstart2 := hd5 (by rw [hidx2u]; omega)
  unfold newCbStart
  rw [hstart2, hidx2u]
  simp only [Nat.add_sub_cancel]
  rw [hcbs2, getD_set_self _ _ _ hkloc]

/-- C10 witness: an oversized queue (pl_size 244, num_elems 65535 →
8192 sectors) on the fresh five-slot handle. -/
theorem C10_flash_full_mutation_witness :
    (sfcb_new_cb scnInit5 0x47114711 244 65535).1 = SFCB_E_FLASH_FULL
    ∧ (sfcb_new_cb scnInit5 0x47114711 244 65535).2.2 = some (newCbIdx scnInit5)
    ∧ (newCbSlot scnInit5 0x47114711 244 65535).uint8Used = 1
    ∧ newCbIdx (sfcb_new_cb scnInit5 0x47114711 244 65535).2.1 = newCbIdx scnInit5 + 1 :=
  have h := C10_flash_full_mutation scnInit5 0x47114711 244 65535 (by decide) (by decide)
  ⟨by decide, h.1, h.2.2.1, ((h.2.2.2.2.2) (by decide) (by decide)).1⟩

/-- C4 (amended): `sfcb_add` accepts a request if and only if the
driver is not busy, the queue id is in range, the queue is used with
`pl_flash_ofs < pl_size + header_size`, and the data fits
(`len + pl_flash_ofs ≤ pages_per_elem·page_size`); `mgmt_valid` is NOT
checked (this is what allows split appends to an open record).  The
errors are worker-busy, no-queue, worker-request and memory in that
priority, and a rejected request leaves the handle unchanged. -/
theorem C4_add_acceptance (s : Sfcb) (cbID : Nat) (data : List Nat) (len : Nat) :
    ((sfcb_add s cbID data len).1 = SFCB_OK ↔
      (s.uint8Busy = 0 ∧ cbID < s.uint8NumCbs
        ∧ (s.ptrCbs.getD cbID default).uint8Used ≠ 0
        ∧ (s.ptrCbs.getD cbID default).uint16PlFlashOfs
            < (s.ptrCbs.getD cbID default).uint16PlSize + headSize
        ∧ len + (s.ptrCbs.getD cbID default).uint16PlFlashOfs
            ≤ (s.ptrCbs.getD cbID default).uint16NumPagesPerElem
                * SFCB_FLASH_TOPO_PAGE_SIZE))
    ∧ ((sfcb_add s cbID data len).1 = SFCB_OK →
        ((sfcb_add s cbID data len).2.uint8Busy = 1
          ∧ (sfcb_add s cbID data len).2.cmd = SfcbCmd.add
          ∧ (sfcb_add s cbID data len).2.stage = SfcbStage.stg00))
    ∧ (s.uint8Busy ≠ 0 → (sfcb_add s cbID data len).1 = SFCB_E_WKR_BSY)
    ∧ (s.uint8Busy = 0 → ¬ cbID < s.uint8NumCbs →
        (sfcb_add s cbID data len).1 = SFCB_E_NO_CB_Q)
    ∧ (s.uint8Busy = 0 → cbID < s.uint8NumCbs →
        ((s.ptrCbs.getD cbID default).uint8Used = 0
          ∨ (s.ptrCbs.getD cbID default).uint16PlFlashOfs
              ≥ (s.ptrCbs.getD cbID default).uint16PlSize + headSize) →
        (sfcb_add s cbID data len).1 = SFCB_E_WKR_REQ)
    ∧ (s.uint8Busy = 0 → cbID < s.uint8NumCbs →
        (s.ptrCbs.getD cbID default).uint8Used ≠ 0 →
        (s.ptrCbs.getD cbID default).uint16PlFlashOfs
          < (s.ptrCbs.getD cbID default).uint16PlSize + headSize →
        len + (s.ptrCbs.getD cbID default).uint16PlFlashOfs
          > (s.ptrCbs.getD cbID default).uint16NumPagesPerElem
              * SFCB_FLASH_TOPO_PAGE_SIZE →
        (sfcb_add s cbID data len).1 = SFCB_E_MEM)
    ∧ ((sfcb_add s cbID data len).1 ≠ SFCB_OK → (sfcb_add s cbID data len).2 = s) := by
  unfold sfcb_add
  dsimp only
  split_ifs <;> dsimp only <;>
    refine ⟨⟨fun h => ?_, fun h => ?_⟩, fun h => ?_, fun hb => ?_, fun hb hq => ?_,
      fun hb hq hu => ?_, fun hb hq hu ho hm => ?_, fun hne => ?_⟩ <;>
    first
      | rfl
      | exact absurd h (by decide)
      | exact ⟨rfl, rfl, rfl⟩
      | exact ⟨by omega, by omega, by omega, by omega, by omega⟩
      | exact absurd rfl hne
      | exact ((by omega : False)).elim

/-- C4 witness: the scanned fresh queue accepts a full append. -/
theorem C4_add_acceptance_witness :
    (sfcb_add scnScanned.1 0 scnPayload 244).1 = SFCB_OK :=
  (C4_add_acceptance scnScanned.1 0 scnPayload 244).1.mpr (by decide)

/-- C5 (amended): an accepted `sfcb_get_last` caps the requested length
at `pages_per_elem·page_size − header_size` — the record span minus ONE
header, so a maximal read includes the footer bytes — starts the flash
read at `start_page_idmax_complete + header_size`, and returns
`id_last_complete` in `*elemID`. -/
theorem C5_get_last_behaviour (s : Sfcb) (cbID : Nat) (data : List Nat) (len : Nat)
    (hbusy : s.uint8Busy = 0)
    (hq : cbID < s.uint8NumCbs)
    (hused : (s.ptrCbs.getD cbID default).uint8Used ≠ 0)
    (hvalid : (s.ptrCbs.getD cbID default).uint8MgmtValid ≠ 0)
    (hne : (s.ptrCbs.getD cbID default).uint16NumEntries ≠ 0)
    (hppe1 : 1 ≤ (s.ptrCbs.getD cbID default).uint16NumPagesPerElem)
    (hppe2 : (s.ptrCbs.getD cbID default).uint16NumPagesPerElem ≤ 256) :
    (sfcb_get_last s cbID data len).1 = SFCB_OK
    ∧ (sfcb_get_last s cbID data len).2.1.uint16CbElemPlSize
      = min len ((s.ptrCbs.getD cbID default).uint16NumPagesPerElem
          * SFCB_FLASH_TOPO_PAGE_SIZE - headSize)
    ∧ (sfcb_get_last s cbID data len).2.1.uint32IterAdr
      = ((s.ptrCbs.getD cbID default).uint32StartPageIdMax + headSize) % 4294967296
    ∧ (sfcb_get_last s cbID data len).2.2
      = (s.ptrCbs.getD cbID default).uint32ElemIdLastCpl
    ∧ (sfcb_get_last s cbID data len).2.1.cmd = SfcbCmd.get
    ∧ (sfcb_get_last s cbID data len).2.1.uint8Busy = 1
    ∧ (sfcb_get_last s cbID data len).2.1.uint16Iter = 0 := by
  unfold sfcb_get_last
  rw [if_neg (by omega : ¬ s.uint8Busy ≠ 0), if_neg (not_not_intro hq),
    if_neg (by omega : ¬ ((s.ptrCbs.getD cbID default).uint8Used = 0
      ∨ (s.ptrCbs.getD cbID default).uint8MgmtValid = 0)), if_neg hne]
  simp only []
  split_ifs with hcap
  · refine ⟨by trivial, ?_, by trivial, by trivial, by trivial, by trivial, by trivial⟩
    have hss : SFCB_FLASH_TOPO_PAGE_SIZE = 256 := by decide
    have hhs : headSize = 8 := by decide
    rw [hss, hhs] at hcap ⊢
    omega
  · refine ⟨by trivial, ?_, by trivial, by trivial, by trivial, by trivial, by trivial⟩
    have hss : SFCB_FLASH_TOPO_PAGE_SIZE = 256 := by decide
    have hhs : headSize = 8 := by decide
    rw [hss, hhs] at hcap ⊢
    omega

/-- C5 witness: the one-record queue (ppe 2) with requested length 600
stores the capped size `min 600 (2·256 − 8) = 504`. -/
theorem C5_get_last_behaviour_witness :
    (sfcb_get_last scnRescanned.1 0 (List.replicate 600 0) 600).2.1.uint16CbElemPlSize
      = min 600 ((scnRescanned.1.ptrCbs.getD 0 default).uint16NumPagesPerElem
          * SFCB_FLASH_TOPO_PAGE_SIZE - headSize) :=
  (C5_get_last_behaviour scnRescanned.1 0 (List.replicate 600 0) 600 (by decide)
    (by decide) (by decide) (by decide) (by decide) (by decide) (by decide)).2.1

/-! ## List toolkit for packet-assembly proofs -/

lemma take_listWrite (l : List Nat) (ofs : Nat) (d : List Nat) (h : ofs ≤ l.length) :
    (listWrite l ofs d).take (ofs + d.length) = l.take ofs ++ d := by
  unfold listWrite
  rw [List.append_assoc, List.take_append_eq_append_take]
  have h1 : (l.take ofs).length = ofs := by
    simp [List.length_take]
    omega
  rw [h1]
  simp only [Nat.add_sub_cancel_left]
  rw [List.take_append_eq_append_take]
  have h2 : d.length - d.length = 0 := by omega
  simp [List.take_of_length_le (le_refl d.length), h2]

lemma adr32_3 (adr : Nat) : sfcb_adr32_uint8 adr 3
    = [adr / 65536 % 256, adr / 256 % 256, adr % 256] := by
  unfold sfcb_adr32_uint8
  norm_num [List.range_succ]

/-! ## Claim C9 -/

/-- C9: every payload page-program step of an append copies exactly
`cpy = min(CbElemPlSize − Iter, page_size − IterAdr % page_size)` data
bytes into the packet and advances `Iter`, `pl_flash_ofs` and `IterAdr`
by exactly `cpy`; the programmed range never crosses a flash page
boundary (`IterAdr % page_size + cpy ≤ page_size`). -/
theorem C9_payload_page_program (s : Sfcb)
    (hcmd : s.cmd = SfcbCmd.add) (hstg : s.stage = SfcbStage.stg03)
    (hlt : s.uint16Iter < s.uint16CbElemPlSize)
    (hsz : s.uint16CbElemPlSize < 65536)
    (hofs : (s.ptrCbs.getD s.uint8IterCb default).uint16PlFlashOfs + 256 < 65536)
    (hadr : s.uint32IterAdr + 256 < 4294967296)
    (hcb : s.uint8IterCb < s.ptrCbs.length)
    (hdata : s.uint16Iter + min (s.uint16CbElemPlSize - s.uint16Iter)
        (SFCB_FLASH_TOPO_PAGE_SIZE - s.uint32IterAdr % SFCB_FLASH_TOPO_PAGE_SIZE)
        ≤ s.ptrCbElemPl.length) :
    (sfcb_worker s).uint16SpiLen = SFCB_FLASH_TOPO_ADR_BYTE + 1
      + min (s.uint16CbElemPlSize - s.uint16Iter)
        (SFCB_FLASH_TOPO_PAGE_SIZE - s.uint32IterAdr % SFCB_FLASH_TOPO_PAGE_SIZE)
    ∧ (sfcb_worker s).uint16Iter = s.uint16Iter
      + min (s.uint16CbElemPlSize - s.uint16Iter)
        (SFCB_FLASH_TOPO_PAGE_SIZE - s.uint32IterAdr % SFCB_FLASH_TOPO_PAGE_SIZE)
    ∧ ((sfcb_worker s).ptrCbs.getD s.uint8IterCb default).uint16PlFlashOfs
      = (s.ptrCbs.getD s.uint8IterCb default).uint16PlFlashOfs
        + min (s.uint16CbElemPlSize - s.uint16Iter)
          (SFCB_FLASH_TOPO_PAGE_SIZE - s.uint32IterAdr % SFCB_FLASH_TOPO_PAGE_SIZE)
    ∧ (sfcb_worker s).uint32IterAdr = s.uint32IterAdr
      + min (s.uint16CbElemPlSize - s.uint16Iter)
        (SFCB_FLASH_TOPO_PAGE_SIZE - s.uint32IterAdr % SFCB_FLASH_TOPO_PAGE_SIZE)
    ∧ (sfcb_worker s).stage = SfcbStage.stg04
    ∧ (sfcb_worker s).uint8PtrSpi.take ((sfcb_worker s).uint16SpiLen)
      = SFCB_FLASH_IST_WR_PAGE :: sfcb_adr32_uint8 s.uint32IterAdr 3
        ++ (s.ptrCbElemPl.drop s.uint16Iter).take
            (min (s.uint16CbElemPlSize - s.uint16Iter)
              (SFCB_FLASH_TOPO_PAGE_SIZE - s.uint32IterAdr % SFCB_FLASH_TOPO_PAGE_SIZE))
    ∧ 1 ≤ min (s.uint16CbElemPlSize - s.uint16Iter)
        (SFCB_FLASH_TOPO_PAGE_SIZE - s.uint32IterAdr % SFCB_FLASH_TOPO_PAGE_SIZE)
    ∧ s.uint32IterAdr % SFCB_FLASH_TOPO_PAGE_SIZE
        + min (s.uint16CbElemPlSize - s.uint16Iter)
          (SFCB_FLASH_TOPO_PAGE_SIZE - s.uint32IterAdr % SFCB_FLASH_TOPO_PAGE_SIZE)
      ≤ SFCB_FLASH_TOPO_PAGE_SIZE := by
  have hw : sfcb_worker s = addStg03 s := by
    unfold sfcb_worker
    rw [hcmd, hstg]
  have hmodlt : s.uint32IterAdr % 256 < 256 := Nat.mod_lt _ (by decide)
  rw [hw]
  unfold addStg03
  dsimp only
  simp only [SFCB_FLASH_TOPO_PAGE_SIZE, SFCB_FLASH_TOPO_ADR_BYTE, headSize,
    SFCB_FLASH_IST_WR_PAGE] at hdata
  simp only [SFCB_FLASH_TOPO_PAGE_SIZE, SFCB_FLASH_TOPO_ADR_BYTE, headSize,
    SFCB_FLASH_IST_WR_PAGE]
  rw [if_pos (Nat.le_of_lt hlt)]
  have hbufA : setByte s.uint8PtrSpi 0 2 = 2 :: s.uint8PtrSpi.drop 1 := by
    unfold setByte listWrite
    simp
  have hbufB : listWrite (2 :: s.uint8PtrSpi.drop 1) 1 (sfcb_adr32_uint8 s.uint32IterAdr 3)
      = 2 :: sfcb_adr32_uint8 s.uint32IterAdr 3 ++ s.uint8PtrSpi.drop 4 := by
    unfold listWrite
    rw [adr32_3]
    simp [List.drop_drop]
  rw [hbufA, hbufB]
  have hlen4 : 4 ≤ (2 :: sfcb_adr32_uint8 s.uint32IterAdr 3
      ++ s.uint8PtrSpi.drop 4).length := by
    simp [adr32_3]
  have h4 : (2 :: sfcb_adr32_uint8 s.uint32IterAdr 3 ++ s.uint8PtrSpi.drop 4).take 4
      = 2 :: sfcb_adr32_uint8 s.uint32IterAdr 3 := by
    rw [adr32_3]
    rfl
  by_cases hgt : s.uint16CbElemPlSize - s.uint16Iter > 256 - s.uint32IterAdr % 256
  · rw [if_pos hgt]
    have hmin : min (s.uint16CbElemPlSize - s.uint16Iter) (256 - s.uint32IterAdr % 256)
        = 256 - s.uint32IterAdr % 256 := by omega
    rw [hmin] at hdata
    have hslice : ((s.ptrCbElemPl.drop s.uint16Iter).take
          (256 - s.uint32IterAdr % 256)).length = 256 - s.uint32IterAdr % 256 := by
      simp [List.length_take, List.length_drop]
      omega
    refine ⟨by rw [hmin]; omega, by rw [hmin]; omega, ?_, by rw [hmin]; omega,
      trivial, ?_, by rw [hmin]; omega, by rw [hmin]; omega⟩
    · rw [getD_set_self _ _ _ hcb]
      dsimp only
      rw [hmin]
      omega
    · have htk := take_listWrite
        (2 :: sfcb_adr32_uint8 s.uint32IterAdr 3 ++ s.uint8PtrSpi.drop 4) 4
        ((s.ptrCbElemPl.drop s.uint16Iter).take (256 - s.uint32IterAdr % 256)) hlen4
      rw [hslice, h4] at htk
      rw [hmin]
      rw [show (3 + 1 + (256 - s.uint32IterAdr % 256)) % 65536
          = 4 + (256 - s.uint32IterAdr % 256) from by omega]
      exact htk
  · rw [if_neg hgt]
    have hmin : min (s.uint16CbElemPlSize - s.uint16Iter) (256 - s.uint32IterAdr % 256)
        = s.uint16CbElemPlSize - s.uint16Iter := by omega
    rw [hmin] at hdata
    have hslice : ((s.ptrCbElemPl.drop s.uint16Iter).take
          (s.uint16CbElemPlSize - s.uint16Iter)).length
        = s.uint16CbElemPlSize - s.uint16Iter := by
      simp [List.length_take, List.length_drop]
      omega
    refine ⟨by rw [hmin]; omega, by rw [hmin]; omega, ?_, by rw [hmin]; omega,
      trivial, ?_, by rw [hmin]; omega, by rw [hmin]; omega⟩
    · rw [getD_set_self _ _ _ hcb]
      dsimp only
      rw [hmin]
      omega
    · have htk := take_listWrite
        (2 :: sfcb_adr32_uint8 s.uint32IterAdr 3 ++ s.uint8PtrSpi.drop 4) 4
        ((s.ptrCbElemPl.drop s.uint16Iter).take
          (s.uint16CbElemPlSize - s.uint16Iter)) hlen4
      rw [hslice, h4] at htk
      rw [hmin]
      rw [show (3 + 1 + (s.uint16CbElemPlSize - s.uint16Iter)) % 65536
          = 4 + (s.uint16CbElemPlSize - s.uint16Iter) from by omega]
      exact htk

/-- C9 witness: a concrete stage-3 state (fresh record, address 8,
244 pending payload bytes): one packet of `4 + 244` bytes, all
iterators advanced by 244. -/
theorem C9_payload_page_program_witness :
    (sfcb_worker scnStg03).uint16SpiLen = SFCB_FLASH_TOPO_ADR_BYTE + 1
      + min (scnStg03.uint16CbElemPlSize - scnStg03.uint16Iter)
        (SFCB_FLASH_TOPO_PAGE_SIZE - scnStg03.uint32IterAdr % SFCB_FLASH_TOPO_PAGE_SIZE)
    ∧ (sfcb_worker scnStg03).uint16Iter = scnStg03.uint16Iter
      + min (scnStg03.uint16CbElemPlSize - scnStg03.uint16Iter)
        (SFCB_FLASH_TOPO_PAGE_SIZE - scnStg03.uint32IterAdr % SFCB_FLASH_TOPO_PAGE_SIZE) :=
  have h := C9_payload_page_program scnStg03 (by decide) (by decide) (by decide)
    (by decide) (by decide) (by decide) (by decide) (by decide)
  ⟨h.1, h.2.1⟩

/-! ## Claim C7 -/

lemma land_sector_mask (x : Nat) (hx : x < 4294967296) :
    x &&& 4294963200 = x - x % 4096 := by
  have hmask : (4294963200 : Nat) = (2 ^ 20 - 1) <<< 12 := by
    norm_num [Nat.shiftLeft_eq]
  have h1 : x &&& 4294963200 = (x >>> 12) <<< 12 := by
    apply Nat.eq_of_testBit_eq
    intro i
    rw [Nat.testBit_land, Nat.testBit_shiftLeft, Nat.testBit_shiftRight, hmask,
      Nat.testBit_shiftLeft, Nat.testBit_two_pow_sub_one]
    by_cases h32 : i < 32
    · by_cases h12 : 12 ≤ i
      · have h20 : i - 12 < 20 := by omega
        simp [h12, h20, show 12 + (i - 12) = i from by omega]
      · simp [h12]
    · have hxb : x.testBit i = false := by
        apply Nat.testBit_eq_false_of_lt
        calc x < 4294967296 := hx
          _ ≤ 2 ^ i := by
            have h32' : (32 : Nat) ≤ i := by omega
            calc (4294967296 : Nat) = 2 ^ 32 := by norm_num
              _ ≤ 2 ^ i := Nat.pow_le_pow_right (by norm_num) h32'
      by_cases h12 : 12 ≤ i
      · have hi : 12 + (i - 12) = i := by omega
        simp [hxb, hi]
      · simp [h12]
  rw [h1, Nat.shiftLeft_eq, Nat.shiftRight_eq_div_pow]
  have h2 : x / 2 ^ 12 = x / 4096 := by norm_num
  rw [h2]
  omega

lemma txAdr_op_adr3 (op x : Nat) (hx : x < 16777216) :
    txAdr (op :: sfcb_adr32_uint8 x 3) = x := by
  rw [adr32_3]
  unfold txAdr
  simp only [List.getD_cons_succ, List.getD_cons_zero]
  have h1 : x / 65536 % 256 = x / 65536 := Nat.mod_eq_of_lt (by omega)
  rw [h1]
  omega

/-- MKCB stage 2 on a fully scanned queue with invalid management data
heads for the sector erase: write-enable packet, stage 3, with command,
queue iterator and the queue's lowest-id page preserved. -/
lemma mkcbStg02_erase_fields (s : Sfcb)
    (hcb : s.uint8IterCb < s.ptrCbs.length)
    (hfull : ¬ s.uint16Iter
        < (s.ptrCbs.getD s.uint8IterCb default).uint16NumEntriesMax - 1)
    (hmv : (s.ptrCbs.getD s.uint8IterCb default).uint8MgmtValid = 0) :
    (mkcbStg02 s).stage = SfcbStage.stg03
    ∧ (mkcbStg02 s).uint16SpiLen = 1
    ∧ (mkcbStg02 s).cmd = s.cmd
    ∧ (mkcbStg02 s).uint8IterCb = s.uint8IterCb
    ∧ (mkcbStg02 s).uint8PtrSpi.take 1 = [SFCB_FLASH_IST_WR_ENA]
    ∧ ((mkcbStg02 s).ptrCbs.getD s.uint8IterCb default).uint32StartPageIdMin
        = (s.ptrCbs.getD s.uint8IterCb default).uint32StartPageIdMin := by
  unfold mkcbStg02 sfcb_spi_get_head
  dsimp only
  split_ifs with h1 h2 h3 h4
  · rw [getD_set_self _ _ _ hcb] at h2
    exact absurd h2 hfull
  · rw [getD_set_self _ _ _ hcb] at h3
    exact absurd hmv h3
  · refine ⟨rfl, rfl, rfl, rfl, ?_, ?_⟩
    · simp [setByte, listWrite]
    · rw [getD_set_self _ _ _ hcb]
  · exact absurd hmv h4
  · refine ⟨rfl, rfl, rfl, rfl, ?_, rfl⟩
    simp [setByte, listWrite]

/-- C7: on a fully scanned queue without a free record slot
(management data still invalid), the worker issues write-enable, then
exactly one sector-erase at `start_page_idmin & ~(sector_size - 1)` --
the sector holding the record with the lowest id -- and then rescans
the queue from record index 0 (element iterator reset, stage 0, still
in `mkcb`, same queue). -/
theorem C7_mkcb_sector_erase (s : Sfcb) (fl : Flash)
    (hcmd : s.cmd = SfcbCmd.mkcb) (hstg : s.stage = SfcbStage.stg02)
    (hcb : s.uint8IterCb < s.ptrCbs.length)
    (hfull : ¬ s.uint16Iter
        < (s.ptrCbs.getD s.uint8IterCb default).uint16NumEntriesMax - 1)
    (hmv : (s.ptrCbs.getD s.uint8IterCb default).uint8MgmtValid = 0)
    (hadr : (s.ptrCbs.getD s.uint8IterCb default).uint32StartPageIdMin
        < 16777216) :
    (mstep s fl).2 = fl
    ∧ (mstep s fl).1.stage = SfcbStage.stg03
    ∧ (sfcb_worker (mstep s fl).1).uint8PtrSpi.take
        (sfcb_worker (mstep s fl).1).uint16SpiLen
      = SFCB_FLASH_IST_ERASE_SECTOR
        :: sfcb_adr32_uint8
            ((s.ptrCbs.getD s.uint8IterCb default).uint32StartPageIdMin
              &&& 4294963200) 3
    ∧ (mstep (mstep s fl).1 fl).2
      = flashEraseSector fl
          ((s.ptrCbs.getD s.uint8IterCb default).uint32StartPageIdMin
            - (s.ptrCbs.getD s.uint8IterCb default).uint32StartPageIdMin
               % SFCB_FLASH_TOPO_SECTOR_SIZE)
    ∧ (mstep (mstep s fl).1 fl).1.stage = SfcbStage.stg04
    ∧ (mstep (mstep (mstep s fl).1 fl).1 (mstep (mstep s fl).1 fl).2).2
      = (mstep (mstep s fl).1 fl).2
    ∧ (mstep (mstep (mstep s fl).1 fl).1 (mstep (mstep s fl).1 fl).2).1.uint16Iter
      = 0
    ∧ (mstep (mstep (mstep s fl).1 fl).1 (mstep (mstep s fl).1 fl).2).1.stage
      = SfcbStage.stg00
    ∧ (mstep (mstep (mstep s fl).1 fl).1 (mstep (mstep s fl).1 fl).2).1.cmd
      = SfcbCmd.mkcb
    ∧ (mstep (mstep (mstep s fl).1 fl).1 (mstep (mstep s fl).1 fl).2).1.uint8IterCb
      = s.uint8IterCb := by
  obtain ⟨f_stage, f_len, f_cmd, f_cbi, f_buf, f_idmin⟩ :=
    mkcbStg02_erase_fields s hcb hfull hmv
  have hB : (s.ptrCbs.getD s.uint8IterCb default).uint32StartPageIdMin
        &&& 4294963200
      = (s.ptrCbs.getD s.uint8IterCb default).uint32StartPageIdMin
        - (s.ptrCbs.getD s.uint8IterCb default).uint32StartPageIdMin % 4096 :=
    land_sector_mask _ (by omega)
  have hB24 : (s.ptrCbs.getD s.uint8IterCb default).uint32StartPageIdMin
        &&& 4294963200 < 16777216 := by
    rw [hB]
    omega
  have hw1 : sfcb_worker s = mkcbStg02 s := by
    unfold sfcb_worker
    rw [hcmd, hstg]
  have hm1 : mstep s fl
      = ({ mkcbStg02 s with uint8PtrSpi := [SFCB_FLASH_IST_WR_ENA] }, fl) := by
    unfold mstep
    rw [hw1]
    dsimp only
    rw [f_len, f_buf]
    rw [if_neg (by decide : ¬ (1 : Nat) = 0)]
    rfl
  have hw2 : sfcb_worker { mkcbStg02 s with uint8PtrSpi := [SFCB_FLASH_IST_WR_ENA] }
      = mkcbStg03 { mkcbStg02 s with uint8PtrSpi := [SFCB_FLASH_IST_WR_ENA] } := by
    unfold sfcb_worker
    dsimp only
    rw [f_cmd, hcmd, f_stage]
  have h3c : mkcbStg03 { mkcbStg02 s with uint8PtrSpi := [SFCB_FLASH_IST_WR_ENA] }
      = { mkcbStg02 s with
          uint8PtrSpi := SFCB_FLASH_IST_ERASE_SECTOR
            :: sfcb_adr32_uint8
                ((s.ptrCbs.getD s.uint8IterCb default).uint32StartPageIdMin
                  &&& 4294963200) 3,
          uint16SpiLen := 4, stage := SfcbStage.stg04 } := by
    unfold mkcbStg03
    dsimp only
    rw [f_cbi, f_idmin]
    rw [show (4294967296 - SFCB_FLASH_TOPO_SECTOR_SIZE : Nat) = 4294963200 from by
      norm_num [SFCB_FLASH_TOPO_SECTOR_SIZE]]
    simp only [SFCB_FLASH_TOPO_ADR_BYTE]
    rw [adr32_3]
    rfl
  have htake : (SFCB_FLASH_IST_ERASE_SECTOR
        :: sfcb_adr32_uint8
            ((s.ptrCbs.getD s.uint8IterCb default).uint32StartPageIdMin
              &&& 4294963200) 3).take 4
      = SFCB_FLASH_IST_ERASE_SECTOR
        :: sfcb_adr32_uint8
            ((s.ptrCbs.getD s.uint8IterCb default).uint32StartPageIdMin
              &&& 4294963200) 3 := by
    rw [adr32_3]
    rfl
  have hex : spiExchange fl (SFCB_FLASH_IST_ERASE_SECTOR
        :: sfcb_adr32_uint8
            ((s.ptrCbs.getD s.uint8IterCb default).uint32StartPageIdMin
              &&& 4294963200) 3)
      = (flashEraseSector fl
           ((s.ptrCbs.getD s.uint8IterCb default).uint32StartPageIdMin
             - (s.ptrCbs.getD s.uint8IterCb default).uint32StartPageIdMin % 4096),
         SFCB_FLASH_IST_ERASE_SECTOR
           :: sfcb_adr32_uint8
               ((s.ptrCbs.getD s.uint8IterCb default).uint32StartPageIdMin
                 &&& 4294963200) 3) := by
    unfold spiExchange
    simp only [List.getD_cons_zero, SFCB_FLASH_IST_RD_STATE_REG,
      SFCB_FLASH_IST_RD_DATA, SFCB_FLASH_IST_WR_PAGE, SFCB_FLASH_IST_ERASE_SECTOR]
    rw [if_neg (by decide : ¬ (32 : Nat) = 5), if_neg (by decide : ¬ (32 : Nat) = 3),
      if_neg (by decide : ¬ (32 : Nat) = 2), txAdr_op_adr3 _ _ hB24, hB,
      if_pos trivial]
  have hm2 : mstep { mkcbStg02 s with uint8PtrSpi := [SFCB_FLASH_IST_WR_ENA] } fl
      = ({ mkcbStg02 s with
           uint8PtrSpi := SFCB_FLASH_IST_ERASE_SECTOR
             :: sfcb_adr32_uint8
                 ((s.ptrCbs.getD s.uint8IterCb default).uint32StartPageIdMin
                   &&& 4294963200) 3,
           uint16SpiLen := 4, stage := SfcbStage.stg04 },
         flashEraseSector fl
           ((s.ptrCbs.getD s.uint8IterCb default).uint32StartPageIdMin
             - (s.ptrCbs.getD s.uint8IterCb default).uint32StartPageIdMin % 4096)) := by
    unfold mstep
    rw [hw2, h3c]
    dsimp only
    rw [if_neg (by decide : ¬ (4 : Nat) = 0)]
    rw [htake, hex]
  have hw3 : sfcb_worker { mkcbStg02 s with
        uint8PtrSpi := SFCB_FLASH_IST_ERASE_SECTOR
          :: sfcb_adr32_uint8
              ((s.ptrCbs.getD s.uint8IterCb default).uint32StartPageIdMin
                &&& 4294963200) 3,
        uint16SpiLen := 4, stage := SfcbStage.stg04 }
      = mkcbStg04 { mkcbStg02 s with
          uint8PtrSpi := SFCB_FLASH_IST_ERASE_SECTOR
            :: sfcb_adr32_uint8
                ((s.ptrCbs.getD s.uint8IterCb default).uint32StartPageIdMin
                  &&& 4294963200) 3,
          uint16SpiLen := 4, stage := SfcbStage.stg04 } := by
    unfold sfcb_worker
    dsimp only
    rw [f_cmd, hcmd]
  have htake2 : (setByte (setByte (SFCB_FLASH_IST_ERASE_SECTOR
        :: sfcb_adr32_uint8
            ((s.ptrCbs.getD s.uint8IterCb default).uint32StartPageIdMin
              &&& 4294963200) 3) 0 SFCB_FLASH_IST_RD_STATE_REG) 1 0).take 2
      = [SFCB_FLASH_IST_RD_STATE_REG, 0] := by
    rw [adr32_3]
    rfl
  have hm3 : mstep { mkcbStg02 s with
        uint8PtrSpi := SFCB_FLASH_IST_ERASE_SECTOR
          :: sfcb_adr32_uint8
              ((s.ptrCbs.getD s.uint8IterCb default).uint32StartPageIdMin
                &&& 4294963200) 3,
        uint16SpiLen := 4, stage := SfcbStage.stg04 }
      (flashEraseSector fl
        ((s.ptrCbs.getD s.uint8IterCb default).uint32StartPageIdMin
          - (s.ptrCbs.getD s.uint8IterCb default).uint32StartPageIdMin % 4096))
      = ({ mkcbStg02 s with
           uint8PtrSpi := [SFCB_FLASH_IST_RD_STATE_REG, 0], uint16Iter := 0,
           uint16SpiLen := 2, stage := SfcbStage.stg00 },
         flashEraseSector fl
           ((s.ptrCbs.getD s.uint8IterCb default).uint32StartPageIdMin
             - (s.ptrCbs.getD s.uint8IterCb default).uint32StartPageIdMin % 4096)) := by
    unfold mstep
    rw [hw3]
    unfold mkcbStg04
    dsimp only
    rw [if_neg (by decide : ¬ (2 : Nat) = 0)]
    rw [htake2]
    rfl
  rw [hm1]
  dsimp only
  rw [hm2]
  dsimp only
  rw [hm3]
  dsimp only
  rw [hw2, h3c]
  dsimp only
  refine ⟨rfl, f_stage, htake, rfl, rfl, rfl, rfl, rfl, ?_, f_cbi⟩
  rw [f_cmd, hcmd]

/-- C7 witness: a concrete full queue (16 of 16 records scanned, no
free slot, oldest record at page address `0x1234`): write-enable, one
sector erase of the 4 KiB sector at `0x1000`, rescan from element 0. -/
theorem C7_mkcb_sector_erase_witness :
    (mstep scnC7 flashAllFF).2 = flashAllFF
    ∧ (mstep scnC7 flashAllFF).1.stage = SfcbStage.stg03
    ∧ (sfcb_worker (mstep scnC7 flashAllFF).1).uint8PtrSpi.take
        (sfcb_worker (mstep scnC7 flashAllFF).1).uint16SpiLen
      = SFCB_FLASH_IST_ERASE_SECTOR
        :: sfcb_adr32_uint8
            ((scnC7.ptrCbs.getD scnC7.uint8IterCb default).uint32StartPageIdMin
              &&& 4294963200) 3
    ∧ (mstep (mstep scnC7 flashAllFF).1 flashAllFF).2
      = flashEraseSector flashAllFF
          ((scnC7.ptrCbs.getD scnC7.uint8IterCb default).uint32StartPageIdMin
            - (scnC7.ptrCbs.getD scnC7.uint8IterCb default).uint32StartPageIdMin
               % SFCB_FLASH_TOPO_SECTOR_SIZE)
    ∧ (mstep (mstep scnC7 flashAllFF).1 flashAllFF).1.stage = SfcbStage.stg04
    ∧ (mstep (mstep (mstep scnC7 flashAllFF).1 flashAllFF).1
        (mstep (mstep scnC7 flashAllFF).1 flashAllFF).2).2
      = (mstep (mstep scnC7 flashAllFF).1 flashAllFF).2
    ∧ (mstep (mstep (mstep scnC7 flashAllFF).1 flashAllFF).1
        (mstep (mstep scnC7 flashAllFF).1 flashAllFF).2).1.uint16Iter = 0
    ∧ (mstep (mstep (mstep scnC7 flashAllFF).1 flashAllFF).1
        (mstep (mstep scnC7 flashAllFF).1 flashAllFF).2).1.stage = SfcbStage.stg00
    ∧ (mstep (mstep (mstep scnC7 flashAllFF).1 flashAllFF).1
        (mstep (mstep scnC7 flashAllFF).1 flashAllFF).2).1.cmd = SfcbCmd.mkcb
    ∧ (mstep (mstep (mstep scnC7 flashAllFF).1 flashAllFF).1
        (mstep (mstep scnC7 flashAllFF).1 flashAllFF).2).1.uint8IterCb
      = scnC7.uint8IterCb :=
  C7_mkcb_sector_erase scnC7 flashAllFF rfl rfl (by decide) (by decide)
    (by decide) (by decide)

/-! ## Claim C8 -/

/-- Every worker poll of an `add` command leaves each queue slot's
magic number and cached maximal id unchanged. -/
lemma add_preserves_slot_id (t : Sfcb) (hc : t.cmd = SfcbCmd.add)
    (hlen : t.uint8IterCb < t.ptrCbs.length) (i : Nat) :
    ((sfcb_worker t).ptrCbs.getD i default).uint32MagicNum
      = (t.ptrCbs.getD i default).uint32MagicNum
    ∧ ((sfcb_worker t).ptrCbs.getD i default).uint32IdNumMax
      = (t.ptrCbs.getD i default).uint32IdNumMax := by
  unfold sfcb_worker
  rw [hc]
  cases ht : t.stage
  · unfold addStg00 sfcb_spi_wip_poll addStg01 idleState
    dsimp only
    split_ifs <;> dsimp only <;>
      first
      | exact ⟨rfl, rfl⟩
      | split_ifs <;> exact ⟨rfl, rfl⟩
  · unfold addStg01 idleState
    dsimp only
    split_ifs <;> exact ⟨rfl, rfl⟩
  · unfold addStg02
    dsimp only
    by_cases hi : i = t.uint8IterCb
    · subst hi
      split_ifs <;>
        · rw [getD_set_self _ _ _ hlen]
          exact ⟨rfl, rfl⟩
    · have hne : t.uint8IterCb ≠ i := fun h => hi h.symm
      split_ifs <;>
        · rw [getD_set_ne _ _ _ _ hne]
          exact ⟨rfl, rfl⟩
  · unfold addStg03
    dsimp only
    by_cases hi : i = t.uint8IterCb
    · subst hi
      rw [getD_set_self _ _ _ hlen]
      exact ⟨rfl, rfl⟩
    · have hne : t.uint8IterCb ≠ i := fun h => hi h.symm
      rw [getD_set_ne _ _ _ _ hne]
      exact ⟨rfl, rfl⟩
  · exact ⟨rfl, rfl⟩

/-- C8: a header or footer write of an append builds the page-program
data `{magic = queue.magic, id = queue.id_max + 1}` (in both the
header-write and the footer-write branch), the append never changes the
queue's magic or cached maximal id (so the footer equals the header of
its record), and in the concrete two-append trace each record's footer
bytes equal its header bytes and the ids ascend strictly. -/
theorem C8_header_footer_id (s : Sfcb)
    (hcmd : s.cmd = SfcbCmd.add) (hstg : s.stage = SfcbStage.stg02) :
    ((sfcb_worker s).uint8PtrSpi.take (sfcb_worker s).uint16SpiLen).take 1
      = [SFCB_FLASH_IST_WR_PAGE]
    ∧ ((sfcb_worker s).uint8PtrSpi.take (sfcb_worker s).uint16SpiLen).drop 4
      = headToBytes
          { uint32MagicNum := (s.ptrCbs.getD s.uint8IterCb default).uint32MagicNum,
            uint32IdNum :=
              ((s.ptrCbs.getD s.uint8IterCb default).uint32IdNumMax + 1)
                % 4294967296 }
    ∧ (sfcb_worker s).head
      = { uint32MagicNum := (s.ptrCbs.getD s.uint8IterCb default).uint32MagicNum,
          uint32IdNum :=
            ((s.ptrCbs.getD s.uint8IterCb default).uint32IdNumMax + 1)
              % 4294967296 }
    ∧ (∀ t : Sfcb, t.cmd = SfcbCmd.add → t.uint8IterCb < t.ptrCbs.length →
        ∀ i : Nat,
        ((sfcb_worker t).ptrCbs.getD i default).uint32MagicNum
          = (t.ptrCbs.getD i default).uint32MagicNum
        ∧ ((sfcb_worker t).ptrCbs.getD i default).uint32IdNumMax
          = (t.ptrCbs.getD i default).uint32IdNumMax)
    ∧ (List.range 8).map (fun k => scnAdded.2 k)
      = headToBytes { uint32MagicNum := 0x47114711, uint32IdNum := 1 }
    ∧ (List.range 8).map (fun k => scnAdded.2 (504 + k))
      = (List.range 8).map (fun k => scnAdded.2 k)
    ∧ (List.range 8).map (fun k => scnAdded2.2 (512 + k))
      = headToBytes { uint32MagicNum := 0x47114711, uint32IdNum := 2 }
    ∧ (List.range 8).map (fun k => scnAdded2.2 (1016 + k))
      = (List.range 8).map (fun k => scnAdded2.2 (512 + k))
    ∧ (bytesToHead ((List.range 8).map (fun k => scnAdded2.2 k))).uint32IdNum
      < (bytesToHead ((List.range 8).map (fun k => scnAdded2.2 (512 + k)))).uint32IdNum := by
  have hw : sfcb_worker s = addStg02 s := by
    unfold sfcb_worker
    rw [hcmd, hstg]
  have hA : ((addStg02 s).uint8PtrSpi.take (addStg02 s).uint16SpiLen).take 1
        = [SFCB_FLASH_IST_WR_PAGE]
      ∧ ((addStg02 s).uint8PtrSpi.take (addStg02 s).uint16SpiLen).drop 4
        = headToBytes
            { uint32MagicNum := (s.ptrCbs.getD s.uint8IterCb default).uint32MagicNum,
              uint32IdNum :=
                ((s.ptrCbs.getD s.uint8IterCb default).uint32IdNumMax + 1)
                  % 4294967296 }
      ∧ (addStg02 s).head
        = { uint32MagicNum := (s.ptrCbs.getD s.uint8IterCb default).uint32MagicNum,
            uint32IdNum :=
              ((s.ptrCbs.getD s.uint8IterCb default).uint32IdNumMax + 1)
                % 4294967296 } := by
    unfold addStg02
    dsimp only
    split_ifs with hp
    · refine ⟨?_, ?_, rfl⟩ <;>
        simp [setByte, listWrite, SFCB_FLASH_TOPO_ADR_BYTE, headSize,
          SFCB_FLASH_IST_WR_PAGE, adr32_3, headToBytes]
    · refine ⟨?_, ?_, rfl⟩ <;>
        simp [setByte, listWrite, SFCB_FLASH_TOPO_ADR_BYTE, headSize,
          SFCB_FLASH_IST_WR_PAGE, adr32_3, headToBytes]
  rw [hw]
  exact ⟨hA.1, hA.2.1, hA.2.2,
    fun t hc hlen i => add_preserves_slot_id t hc hlen i,
    by decide, by decide, by decide, by decide, by decide⟩

/-- C8 witness: at the concrete append state `scnC8` (queue magic
`0x47114711`, cached `id_max = 7`) the written page-program data is
`{0x47114711, 8}`, and in the two-append trace the record ids ascend. -/
theorem C8_header_footer_id_witness :
    ((sfcb_worker scnC8).uint8PtrSpi.take (sfcb_worker scnC8).uint16SpiLen).take 1
      = [SFCB_FLASH_IST_WR_PAGE]
    ∧ ((sfcb_worker scnC8).uint8PtrSpi.take (sfcb_worker scnC8).uint16SpiLen).drop 4
      = headToBytes
          { uint32MagicNum :=
              (scnC8.ptrCbs.getD scnC8.uint8IterCb default).uint32MagicNum,
            uint32IdNum :=
              ((scnC8.ptrCbs.getD scnC8.uint8IterCb default).uint32IdNumMax + 1)
                % 4294967296 }
    ∧ (bytesToHead ((List.range 8).map (fun k => scnAdded2.2 k))).uint32IdNum
      < (bytesToHead ((List.range 8).map (fun k => scnAdded2.2 (512 + k)))).uint32IdNum :=
  have h := C8_header_footer_id scnC8 rfl rfl
  ⟨h.1, h.2.1, h.2.2.2.2.2.2.2.2⟩

/-! ## Claim C3 (amended): refinement lemmas for the mkcb scan -/

lemma txAdr_cons3_append (op x : Nat) (rest : List Nat) (hx : x < 16777216) :
    txAdr (op :: sfcb_adr32_uint8 x 3 ++ rest) = x := by
  rw [adr32_3]
  unfold txAdr
  simp only [List.cons_append, List.getD_cons_succ, List.getD_cons_zero]
  have h1 : x / 65536 % 256 = x / 65536 := Nat.mod_eq_of_lt (by omega)
  rw [h1]
  omega

lemma scanHeadRsp_length (fl : Flash) (ss pp e : Nat) :
    (scanHeadRsp fl ss pp e).length = 12 := by
  simp [scanHeadRsp, adr32_3, slotHeadBytes, headSize]

lemma scanFootRsp_length (fl : Flash) (ss pp e : Nat) :
    (scanFootRsp fl ss pp e).length = 12 := by
  simp [scanFootRsp, adr32_3, slotFootBytes, headSize]

lemma scanHeadRsp_drop (fl : Flash) (ss pp e : Nat) :
    (scanHeadRsp fl ss pp e).drop (SFCB_FLASH_TOPO_ADR_BYTE + 1)
      = slotHeadBytes fl ss pp e := by
  rw [scanHeadRsp, adr32_3]
  rfl

lemma scanFootRsp_drop (fl : Flash) (ss pp e : Nat) :
    (scanFootRsp fl ss pp e).drop (SFCB_FLASH_TOPO_ADR_BYTE + 1)
      = slotFootBytes fl ss pp e := by
  rw [scanFootRsp, adr32_3]
  rfl

/-- The `sfcb_spi_get_head` buffer rewrite on a 12-byte buffer. -/
lemma get_head_packet (B : List Nat) (hB : B.length ≤ 12) (adr : Nat) :
    listWrite (setByte (listWrite B 0
        (List.replicate (SFCB_FLASH_TOPO_ADR_BYTE + 1 + headSize) 0))
        0 SFCB_FLASH_IST_RD_DATA) 1 (sfcb_adr32_uint8 adr SFCB_FLASH_TOPO_ADR_BYTE)
      = SFCB_FLASH_IST_RD_DATA :: sfcb_adr32_uint8 adr 3 ++ List.replicate 8 0 := by
  have hdrop : B.drop 12 = [] := by
    rw [List.drop_eq_nil_iff]
    exact hB
  simp only [SFCB_FLASH_TOPO_ADR_BYTE, headSize, SFCB_FLASH_IST_RD_DATA]
  rw [adr32_3]
  simp [listWrite, setByte, hdrop, List.replicate]

/-- One SPI read transaction of a 12-byte header/footer request. -/
lemma spiExchange_read (fl : Flash) (adr : Nat) (hadr : adr < 16777216) :
    spiExchange fl ((SFCB_FLASH_IST_RD_DATA :: sfcb_adr32_uint8 adr 3
        ++ List.replicate 8 0).take (SFCB_FLASH_TOPO_ADR_BYTE + 1 + headSize))
      = (fl, SFCB_FLASH_IST_RD_DATA :: sfcb_adr32_uint8 adr 3
          ++ (List.range 8).map (fun i => fl (adr + i))) := by
  have htake : (SFCB_FLASH_IST_RD_DATA :: sfcb_adr32_uint8 adr 3
        ++ List.replicate 8 0).take (SFCB_FLASH_TOPO_ADR_BYTE + 1 + headSize)
      = SFCB_FLASH_IST_RD_DATA :: sfcb_adr32_uint8 adr 3 ++ List.replicate 8 0 := by
    rw [adr32_3]
    rfl
  rw [htake]
  have hlen : (SFCB_FLASH_IST_RD_DATA :: sfcb_adr32_uint8 adr 3
      ++ List.replicate 8 0).length = 12 := by
    simp [adr32_3]
  have hx := txAdr_cons3_append SFCB_FLASH_IST_RD_DATA adr (List.replicate 8 0) hadr
  have hop : (SFCB_FLASH_IST_RD_DATA :: sfcb_adr32_uint8 adr 3
      ++ List.replicate 8 0).getD 0 0 = SFCB_FLASH_IST_RD_DATA := rfl
  have htk4 : (SFCB_FLASH_IST_RD_DATA :: sfcb_adr32_uint8 adr 3
        ++ List.replicate 8 0).take (SFCB_FLASH_TOPO_ADR_BYTE + 1)
      = SFCB_FLASH_IST_RD_DATA :: sfcb_adr32_uint8 adr 3 := by
    rw [adr32_3]
    rfl
  unfold spiExchange
  rw [hop, if_neg (by decide
      : ¬ SFCB_FLASH_IST_RD_DATA = SFCB_FLASH_IST_RD_STATE_REG),
    if_pos (rfl : SFCB_FLASH_IST_RD_DATA = SFCB_FLASH_IST_RD_DATA),
    hx, hlen, htk4]
  norm_num [SFCB_FLASH_TOPO_ADR_BYTE]

lemma slotHeadBytes_map (fl : Flash) (ss pp e : Nat) :
    (List.range 8).map (fun i => fl (scanHeadAdr ss pp e + i))
      = slotHeadBytes fl ss pp e := by
  simp only [slotHeadBytes, headSize, scanHeadAdr]

lemma slotFootBytes_map (fl : Flash) (ss pp e : Nat) :
    (List.range 8).map (fun i => fl (scanHeadAdr ss pp (e + 1) - headSize + i))
      = slotFootBytes fl ss pp e := by
  simp only [slotFootBytes, headSize, scanHeadAdr]

lemma head_adr_nomod (ss pp n e : Nat) (he : e ≤ n)
    (hbound : ss * 4096 + pp * 256 * n ≤ 16777216) :
    (ss * 4096 + pp * 256 * e) % 4294967296 = ss * 4096 + pp * 256 * e := by
  have hmul : pp * 256 * e ≤ pp * 256 * n := Nat.mul_le_mul_left _ he
  omega

lemma head_adr_lt (ss pp n e : Nat) (he : e ≤ n)
    (hbound : ss * 4096 + pp * 256 * n ≤ 16777216) :
    ss * 4096 + pp * 256 * e < 16777216 ∨ ss * 4096 + pp * 256 * e = 16777216 := by
  have hmul : pp * 256 * e ≤ pp * 256 * n := Nat.mul_le_mul_left _ he
  omega

lemma foot_adr_arith (ss pp n e : Nat) (hp : 1 ≤ pp) (he : e + 1 ≤ n)
    (hnb : n ≤ 65535)
    (hbound : ss * 4096 + pp * 256 * n ≤ 16777216) :
    ((ss * 4096 + pp * 256 * ((e + 1) % 65536)) % 4294967296 + 4294967296 - 8)
        % 4294967296
      = ss * 4096 + pp * 256 * (e + 1) - 8 := by
  have h65 : (e + 1) % 65536 = e + 1 := Nat.mod_eq_of_lt (by omega)
  rw [h65]
  have hmul : pp * 256 * (e + 1) ≤ pp * 256 * n := Nat.mul_le_mul_left _ he
  have hone : pp * 256 * 1 ≤ pp * 256 * (e + 1) := Nat.mul_le_mul_left _ (by omega)
  omega

lemma mrun_idle (n : Nat) (s : Sfcb) (fl : Flash) (h : s.uint8Busy = 0) :
    mrun n s fl = (s, fl) := by
  cases n with
  | zero => rfl
  | succ n =>
    unfold mrun
    rw [if_pos h]

lemma head_adr_fold (ss pp n e : Nat) (he : e ≤ n)
    (hbound : ss * 4096 + pp * 256 * n ≤ 16777216) :
    (ss * SFCB_FLASH_TOPO_SECTOR_SIZE + pp * SFCB_FLASH_TOPO_PAGE_SIZE * e)
        % 4294967296
      = scanHeadAdr ss pp e := by
  simp only [SFCB_FLASH_TOPO_SECTOR_SIZE, SFCB_FLASH_TOPO_PAGE_SIZE, scanHeadAdr]
  exact head_adr_nomod ss pp n e he hbound

lemma foot_adr_fold (ss pp n e : Nat) (hp : 1 ≤ pp) (he : e + 1 ≤ n)
    (hnb : n ≤ 65535) (hbound : ss * 4096 + pp * 256 * n ≤ 16777216) :
    ((ss * SFCB_FLASH_TOPO_SECTOR_SIZE
        + pp * SFCB_FLASH_TOPO_PAGE_SIZE * ((e + 1) % 65536)) % 4294967296
      + 4294967296 - headSize) % 4294967296
      = scanHeadAdr ss pp (e + 1) - headSize := by
  simp only [SFCB_FLASH_TOPO_SECTOR_SIZE, SFCB_FLASH_TOPO_PAGE_SIZE, headSize,
    scanHeadAdr]
  exact foot_adr_arith ss pp n e hp he hnb hbound

lemma scanHeadAdr_lt (ss pp n e : Nat) (hp : 1 ≤ pp) (he : e < n)
    (hbound : ss * 4096 + pp * 256 * n ≤ 16777216) :
    scanHeadAdr ss pp e < 16777216 := by
  simp only [scanHeadAdr, SFCB_FLASH_TOPO_SECTOR_SIZE, SFCB_FLASH_TOPO_PAGE_SIZE]
  have h1 : pp * 256 * (e + 1) ≤ pp * 256 * n := Nat.mul_le_mul_left _ (by omega)
  have h2 : pp * 256 * (e + 1) = pp * 256 * e + pp * 256 := Nat.mul_succ _ _
  have h3 : 256 ≤ pp * 256 := by omega
  omega

lemma scanFootAdr_lt (ss pp n e : Nat) (he : e + 1 ≤ n)
    (hbound : ss * 4096 + pp * 256 * n ≤ 16777216) :
    scanHeadAdr ss pp (e + 1) - headSize < 16777216 := by
  simp only [scanHeadAdr, headSize, SFCB_FLASH_TOPO_SECTOR_SIZE,
    SFCB_FLASH_TOPO_PAGE_SIZE]
  have h1 : pp * 256 * (e + 1) ≤ pp * 256 * n := Nat.mul_le_mul_left _ he
  omega

/-- Servicing a pending header request: the flash answers with the
header bytes of slot `e` and the driver state becomes canonical. -/
lemma mstep_of_headreq (s : Sfcb) (fl : Flash) (c : SfcbCb) (e : Nat)
    (hd ft : ElemHead) (lA lN : Nat)
    (hw : sfcb_worker s = scanHeadReq c e hd ft lA lN)
    (hadr : scanHeadAdr c.uint32StartSector c.uint16NumPagesPerElem e
        < 16777216) :
    mstep s fl = (scanState fl c e hd ft lA lN, fl) := by
  unfold mstep
  rw [hw]
  unfold scanHeadReq
  dsimp only
  rw [if_neg (by decide : ¬ (SFCB_FLASH_TOPO_ADR_BYTE + 1 + headSize = 0))]
  rw [spiExchange_read fl _ hadr]
  dsimp only
  rw [slotHeadBytes_map]
  unfold scanState scanHeadRsp
  rfl

/-- Servicing a pending footer request. -/
lemma mstep_of_footreq (s : Sfcb) (fl : Flash) (c : SfcbCb) (e : Nat)
    (hd ft : ElemHead) (lA lN : Nat)
    (hw : sfcb_worker s = scanFootReq c e hd ft lA lN)
    (hadr : scanHeadAdr c.uint32StartSector c.uint16NumPagesPerElem (e + 1)
        - headSize < 16777216) :
    mstep s fl = (scanFootState fl c e hd ft lA lN, fl) := by
  unfold mstep
  rw [hw]
  unfold scanFootReq
  dsimp only
  rw [if_neg (by decide : ¬ (SFCB_FLASH_TOPO_ADR_BYTE + 1 + headSize = 0))]
  rw [spiExchange_read fl _ hadr]
  dsimp only
  rw [slotFootBytes_map]
  unfold scanFootState scanFootRsp
  rfl

/-- MKCB stage 1 on a canonical state: parse the header of slot `e`,
bump the entry counter exactly on a magic match, and issue the footer
request; the queue geometry is untouched. -/
lemma scan_stg01_worker (fl : Flash) (c : SfcbCb) (e : Nat)
    (hd ft : ElemHead) (lA lN : Nat)
    (hmgmt : c.uint8MgmtValid = 1)
    (hent : c.uint16NumEntries < 65536)
    (hp : 1 ≤ c.uint16NumPagesPerElem)
    (he : e + 1 ≤ c.uint16NumEntriesMax)
    (hnb : c.uint16NumEntriesMax ≤ 65535)
    (hbound : c.uint32StartSector * 4096
        + c.uint16NumPagesPerElem * 256 * c.uint16NumEntriesMax ≤ 16777216) :
    ∃ c' : SfcbCb, ∃ lA' lN' : Nat,
      sfcb_worker (scanState fl c e hd ft lA lN)
        = scanFootReq c' e
            (bytesToHead (slotHeadBytes fl c.uint32StartSector
              c.uint16NumPagesPerElem e)) ft lA' lN'
      ∧ c'.uint16NumEntries
          = (c.uint16NumEntries
              + if (bytesToHead (slotHeadBytes fl c.uint32StartSector
                      c.uint16NumPagesPerElem e)).uint32MagicNum
                    = c.uint32MagicNum then 1 else 0) % 65536
      ∧ c'.uint16NumEntries < 65536
      ∧ c'.uint8MgmtValid = 1
      ∧ c'.uint16NumEntriesMax = c.uint16NumEntriesMax
      ∧ c'.uint32StartSector = c.uint32StartSector
      ∧ c'.uint16NumPagesPerElem = c.uint16NumPagesPerElem
      ∧ c'.uint32MagicNum = c.uint32MagicNum := by
  have hdisp : sfcb_worker (scanState fl c e hd ft lA lN)
      = mkcbStg01 (scanState fl c e hd ft lA lN) := rfl
  rw [hdisp]
  unfold mkcbStg01 scanState sfcb_spi_get_head
  dsimp only
  simp only [List.getD_cons_zero]
  rw [scanHeadRsp_drop]
  split_ifs with h1 h2 h3 h4 h5 h6
  · refine ⟨{ c with
        uint16NumEntries := (c.uint16NumEntries + 1) % 65536,
        uint32IdNumMax := (bytesToHead (slotHeadBytes fl c.uint32StartSector
            c.uint16NumPagesPerElem e)).uint32IdNum,
        uint32IdNumMin := (bytesToHead (slotHeadBytes fl c.uint32StartSector
            c.uint16NumPagesPerElem e)).uint32IdNum,
        uint32StartPageIdMin :=
          scanHeadAdr c.uint32StartSector c.uint16NumPagesPerElem e },
      scanHeadAdr c.uint32StartSector c.uint16NumPagesPerElem e,
      (bytesToHead (slotHeadBytes fl c.uint32StartSector
          c.uint16NumPagesPerElem e)).uint32IdNum,
      ?_, ?_, by dsimp only; omega, hmgmt, rfl, rfl, rfl, rfl⟩
    · unfold scanFootReq sfcb_flash_adr_head
      dsimp only
      simp only [List.set_cons_zero, List.getD_cons_zero]
      try dsimp only
      rw [foot_adr_fold _ _ _ _ hp he hnb hbound]
      try rw [get_head_packet _ (le_of_eq (scanHeadRsp_length _ _ _ _)) _]
      try rfl
    · dsimp only
      try rw [if_pos h1]
      try rfl
      try omega
  · refine ⟨{ c with
        uint16NumEntries := (c.uint16NumEntries + 1) % 65536,
        uint32IdNumMax := (bytesToHead (slotHeadBytes fl c.uint32StartSector
            c.uint16NumPagesPerElem e)).uint32IdNum },
      scanHeadAdr c.uint32StartSector c.uint16NumPagesPerElem e,
      (bytesToHead (slotHeadBytes fl c.uint32StartSector
          c.uint16NumPagesPerElem e)).uint32IdNum,
      ?_, ?_, by dsimp only; omega, hmgmt, rfl, rfl, rfl, rfl⟩
    · unfold scanFootReq sfcb_flash_adr_head
      dsimp only
      simp only [List.set_cons_zero, List.getD_cons_zero]
      try dsimp only
      rw [foot_adr_fold _ _ _ _ hp he hnb hbound]
      try rw [get_head_packet _ (le_of_eq (scanHeadRsp_length _ _ _ _)) _]
      try rfl
    · dsimp only
      try rw [if_pos h1]
      try rfl
      try omega
  · refine ⟨{ c with
        uint16NumEntries := (c.uint16NumEntries + 1) % 65536,
        uint32IdNumMin := (bytesToHead (slotHeadBytes fl c.uint32StartSector
            c.uint16NumPagesPerElem e)).uint32IdNum,
        uint32StartPageIdMin :=
          scanHeadAdr c.uint32StartSector c.uint16NumPagesPerElem e },
      lA, lN,
      ?_, ?_, by dsimp only; omega, hmgmt, rfl, rfl, rfl, rfl⟩
    · unfold scanFootReq sfcb_flash_adr_head
      dsimp only
      simp only [List.set_cons_zero, List.getD_cons_zero]
      try dsimp only
      rw [foot_adr_fold _ _ _ _ hp he hnb hbound]
      try rw [get_head_packet _ (le_of_eq (scanHeadRsp_length _ _ _ _)) _]
      try rfl
    · dsimp only
      try rw [if_pos h1]
      try rfl
      try omega
  · refine ⟨{ c with
        uint16NumEntries := (c.uint16NumEntries + 1) % 65536 },
      lA, lN,
      ?_, ?_, by dsimp only; omega, hmgmt, rfl, rfl, rfl, rfl⟩
    · unfold scanFootReq sfcb_flash_adr_head
      dsimp only
      simp only [List.set_cons_zero, List.getD_cons_zero]
      try dsimp only
      rw [foot_adr_fold _ _ _ _ hp he hnb hbound]
      try rw [get_head_packet _ (le_of_eq (scanHeadRsp_length _ _ _ _)) _]
      try rfl
    · dsimp only
      try rw [if_pos h1]
      try rfl
      try omega
  · exact ((by omega : False)).elim
  · exact ((by omega : False)).elim
  · refine ⟨c, lA, lN, ?_, ?_, hent, hmgmt, rfl, rfl, rfl, rfl⟩
    · unfold scanFootReq sfcb_flash_adr_head
      dsimp only
      simp only [List.set_cons_zero, List.getD_cons_zero]
      try dsimp only
      rw [foot_adr_fold _ _ _ _ hp he hnb hbound]
      try rw [get_head_packet _ (le_of_eq (scanHeadRsp_length _ _ _ _)) _]
      try rfl
    · try dsimp only
      try rw [if_neg h1]
      omega

/-- MKCB stage 2 on a canonical footer state, mid-queue: check the
footer (anchoring the last complete record on a match), request the
next header; entries and geometry unchanged. -/
lemma scan_stg02_worker (fl : Flash) (c : SfcbCb) (e : Nat)
    (hd ft : ElemHead) (lA lN : Nat)
    (hmgmt : c.uint8MgmtValid = 1)
    (he2 : e + 2 ≤ c.uint16NumEntriesMax)
    (hnb : c.uint16NumEntriesMax ≤ 65535)
    (hbound : c.uint32StartSector * 4096
        + c.uint16NumPagesPerElem * 256 * c.uint16NumEntriesMax ≤ 16777216) :
    ∃ c' : SfcbCb,
      sfcb_worker (scanFootState fl c e hd ft lA lN)
        = scanHeadReq c' (e + 1) hd
            (bytesToHead (slotFootBytes fl c.uint32StartSector
              c.uint16NumPagesPerElem e)) lA lN
      ∧ c'.uint16NumEntries = c.uint16NumEntries
      ∧ c'.uint8MgmtValid = 1
      ∧ c'.uint16NumEntriesMax = c.uint16NumEntriesMax
      ∧ c'.uint32StartSector = c.uint32StartSector
      ∧ c'.uint16NumPagesPerElem = c.uint16NumPagesPerElem
      ∧ c'.uint32MagicNum = c.uint32MagicNum := by
  have hdisp : sfcb_worker (scanFootState fl c e hd ft lA lN)
      = mkcbStg02 (scanFootState fl c e hd ft lA lN) := rfl
  rw [hdisp]
  unfold mkcbStg02 scanFootState sfcb_spi_get_head
  dsimp only
  simp only [List.getD_cons_zero]
  rw [scanFootRsp_drop]
  split_ifs with h1 h2 h3 h4 h5
  all_goals try
    (exfalso
     simp only [List.set_cons_zero, List.getD_cons_zero] at *
     omega)
  · refine ⟨{ c with uint32StartPageIdMax := lA, uint32ElemIdLastCpl := lN },
      ?_, rfl, ?_, rfl, rfl, rfl, rfl⟩
    · unfold scanHeadReq sfcb_flash_adr_head
      dsimp only
      simp only [List.set_cons_zero, List.getD_cons_zero]
      try dsimp only
      rw [show (e + 1) % 65536 = e + 1 from Nat.mod_eq_of_lt (by omega)]
      rw [head_adr_fold _ _ _ _ (by omega) hbound]
      try rw [get_head_packet _ (le_of_eq (scanFootRsp_length _ _ _ _)) _]
      try rfl
    · exact hmgmt
  · refine ⟨c, ?_, rfl, ?_, rfl, rfl, rfl, rfl⟩
    · unfold scanHeadReq sfcb_flash_adr_head
      dsimp only
      try simp only [List.set_cons_zero, List.getD_cons_zero]
      try dsimp only
      rw [show (e + 1) % 65536 = e + 1 from Nat.mod_eq_of_lt (by omega)]
      rw [head_adr_fold _ _ _ _ (by omega) hbound]
      try rw [get_head_packet _ (le_of_eq (scanFootRsp_length _ _ _ _)) _]
      try rfl
    · exact hmgmt

/-- MKCB stage 2 on the last slot of a (single) queue whose management
data is valid: the worker goes idle; the entry count is untouched. -/
lemma scan_stg02_last (fl : Flash) (c : SfcbCb) (e : Nat)
    (hd ft : ElemHead) (lA lN : Nat)
    (hmgmt : c.uint8MgmtValid = 1)
    (hnb : c.uint16NumEntriesMax ≤ 65535)
    (hlast : e + 1 = c.uint16NumEntriesMax) :
    ∃ sF : Sfcb,
      mstep (scanFootState fl c e hd ft lA lN) fl = (sF, fl)
      ∧ sF.uint8Busy = 0
      ∧ sF.cmd = SfcbCmd.idle
      ∧ (sF.ptrCbs.getD 0 default).uint16NumEntries = c.uint16NumEntries := by
  unfold mstep
  have hdisp : sfcb_worker (scanFootState fl c e hd ft lA lN)
      = mkcbStg02 (scanFootState fl c e hd ft lA lN) := rfl
  rw [hdisp]
  unfold mkcbStg02 scanFootState sfcb_spi_get_head idleState mkcbLookAhead
  dsimp only
  simp only [List.getD_cons_zero]
  rw [scanFootRsp_drop]
  split_ifs with h1 h2 h3 h4 h5 h6
  all_goals try
    (exfalso
     simp only [List.set_cons_zero, List.getD_cons_zero] at *
     omega)
  all_goals norm_num [mkcbLookAheadAux]
  all_goals exfalso
  all_goals norm_num [mkcbLookAheadAux] at *

lemma scanMagicBits_spec (fl : Flash) (ss pp m : Nat) :
    ∀ k e, scanMagicBits fl ss pp m k e
      = ((List.range' e k).filter (fun j =>
          decide ((bytesToHead (slotHeadBytes fl ss pp j)).uint32MagicNum
            = m))).length := by
  intro k
  induction k with
  | zero => intro e; rfl
  | succ k ih =>
    intro e
    rw [List.range'_succ]
    simp only [List.filter_cons, scanMagicBits, ih (e + 1)]
    by_cases h : (bytesToHead (slotHeadBytes fl ss pp e)).uint32MagicNum = m
    · simp [h]
      omega
    · simp [h]

lemma scanMagicBits_eq_specMagicCount (fl : Flash) (ss pp n m : Nat) :
    scanMagicBits fl ss pp m n 0 = specMagicCount fl ss pp n m := by
  rw [scanMagicBits_spec]
  unfold specMagicCount
  rw [List.range_eq_range']

/-- The scan loop: from the canonical state at slot `e` with `k ≥ 1`
slots left, the driver reaches idle in `2k + 1` polls, adds exactly
the number of header-magic matches of slots `e .. e+k-1` to the entry
counter, and leaves the flash untouched. -/
lemma scan_run (fl : Flash) : ∀ k : Nat, ∀ (c : SfcbCb) (e : Nat)
    (hd ft : ElemHead) (lA lN : Nat),
    1 ≤ k →
    e + k = c.uint16NumEntriesMax →
    c.uint8MgmtValid = 1 →
    c.uint16NumEntries < 65536 →
    1 ≤ c.uint16NumPagesPerElem →
    c.uint16NumEntriesMax ≤ 65535 →
    c.uint32StartSector * 4096
      + c.uint16NumPagesPerElem * 256 * c.uint16NumEntriesMax ≤ 16777216 →
    ∃ sF : Sfcb,
      mrun (2 * k + 1) (scanState fl c e hd ft lA lN) fl = (sF, fl)
      ∧ sF.uint8Busy = 0
      ∧ sF.cmd = SfcbCmd.idle
      ∧ (sF.ptrCbs.getD 0 default).uint16NumEntries
        = (c.uint16NumEntries
            + scanMagicBits fl c.uint32StartSector c.uint16NumPagesPerElem
                c.uint32MagicNum k e) % 65536 := by
  intro k
  induction k with
  | zero =>
    intro c e hd ft lA lN hk
    exact absurd hk (by decide)
  | succ k ih =>
    intro c e hd ft lA lN hk he hmgmt hent hp hnb hbound
    obtain ⟨c1, lA1, lN1, hw1, hent1, hent1lt, hmv1, hmax1, hss1, hpp1, hm1⟩ :=
      scan_stg01_worker fl c e hd ft lA lN hmgmt hent hp (by omega) hnb hbound
    have hfb : scanHeadAdr c1.uint32StartSector c1.uint16NumPagesPerElem (e + 1)
        - headSize < 16777216 := by
      rw [hss1, hpp1]
      exact scanFootAdr_lt _ _ c.uint16NumEntriesMax _ (by omega) hbound
    have hstep1 := mstep_of_footreq _ fl c1 e _ ft lA1 lN1 hw1 hfb
    have hbusy0 : ¬ ((scanState fl c e hd ft lA lN).uint8Busy = 0) := by
      simp [scanState]
    by_cases hk0 : k = 0
    · subst hk0
      have hlast : e + 1 = c1.uint16NumEntriesMax := by
        rw [hmax1]
        omega
      obtain ⟨sF, hstep2, hbF, hcF, heF⟩ :=
        scan_stg02_last fl c1 e _ ft lA1 lN1 hmv1 (by rw [hmax1]; exact hnb) hlast
      refine ⟨sF, ?_, hbF, hcF, ?_⟩
      · rw [show 2 * (0 + 1) + 1 = 1 + 1 + 1 from by omega]
        rw [mrun]
        rw [if_neg hbusy0]
        dsimp only
        rw [hstep1]
        dsimp only
        rw [mrun]
        rw [if_neg (by simp [scanFootState])]
        dsimp only
        rw [hstep2]
        dsimp only
        exact mrun_idle 1 sF fl hbF
      · rw [heF, hent1]
        simp only [scanMagicBits]
        omega
    · have he2 : e + 2 ≤ c1.uint16NumEntriesMax := by
        rw [hmax1]
        omega
      obtain ⟨c2, hw2, hent2, hmv2, hmax2, hss2, hpp2, hm2⟩ :=
        scan_stg02_worker fl c1 e _ ft lA1 lN1 hmv1 he2
          (by rw [hmax1]; exact hnb)
          (by rw [hss1, hpp1, hmax1]; exact hbound)
      have hhb : scanHeadAdr c2.uint32StartSector c2.uint16NumPagesPerElem (e + 1)
          < 16777216 := by
        rw [hss2, hss1, hpp2, hpp1]
        exact scanHeadAdr_lt _ _ c.uint16NumEntriesMax _ hp (by omega) hbound
      have hstep2 := mstep_of_headreq _ fl c2 (e + 1) _ _ lA1 lN1 hw2 hhb
      obtain ⟨sF, hrun, hbF, hcF, heF⟩ :=
        ih c2 (e + 1) _ _ lA1 lN1 (by omega)
          (by rw [hmax2, hmax1]; omega)
          hmv2
          (by rw [hent2]; exact hent1lt)
          (by rw [hpp2, hpp1]; exact hp)
          (by rw [hmax2, hmax1]; exact hnb)
          (by rw [hss2, hss1, hpp2, hpp1, hmax2, hmax1]; exact hbound)
      refine ⟨sF, ?_, hbF, hcF, ?_⟩
      · rw [show 2 * (k + 1) + 1 = (2 * k + 1) + 1 + 1 from by omega]
        rw [mrun]
        rw [if_neg hbusy0]
        dsimp only
        rw [hstep1]
        dsimp only
        rw [mrun]
        rw [if_neg (by simp [scanFootState])]
        dsimp only
        rw [hstep2]
        dsimp only
        exact hrun
      · rw [heF, hss2, hss1, hpp2, hpp1, hm2, hm1, hent2, hent1]
        simp only [scanMagicBits]
        omega

/-- The first two polls of a single-queue `mkcb` scan: WIP poll, then
the header request of slot 0. -/
lemma scan_enter (fl : Flash) (c : SfcbCb)
    (hp : 1 ≤ c.uint16NumPagesPerElem)
    (hn : 1 ≤ c.uint16NumEntriesMax)
    (hbound : c.uint32StartSector * 4096
        + c.uint16NumPagesPerElem * 256 * c.uint16NumEntriesMax ≤ 16777216) :
    mstep (scanStart c) fl
      = ({ scanStart c with
           uint8PtrSpi := [SFCB_FLASH_IST_RD_STATE_REG, 0],
           uint16SpiLen := 2 }, fl)
    ∧ mstep ({ scanStart c with
           uint8PtrSpi := [SFCB_FLASH_IST_RD_STATE_REG, 0],
           uint16SpiLen := 2 }) fl
      = (scanState fl c 0 default default 0 0, fl) := by
  constructor
  · rfl
  · have hw2 : sfcb_worker ({ scanStart c with
          uint8PtrSpi := [SFCB_FLASH_IST_RD_STATE_REG, 0], uint16SpiLen := 2 })
        = scanHeadReq c 0 default default 0 0 := by
      have hdisp : sfcb_worker ({ scanStart c with
            uint8PtrSpi := [SFCB_FLASH_IST_RD_STATE_REG, 0], uint16SpiLen := 2 })
          = mkcbStg00 ({ scanStart c with
            uint8PtrSpi := [SFCB_FLASH_IST_RD_STATE_REG, 0], uint16SpiLen := 2 }) := rfl
      rw [hdisp]
      unfold mkcbStg00 sfcb_spi_wip_poll scanStart sfcb_spi_get_head
        sfcb_flash_adr_head
      dsimp only
      rw [if_neg (by decide)]
      dsimp only
      simp only [List.getD_cons_zero]
      rw [head_adr_fold _ _ _ _ (Nat.zero_le _) hbound]
      rw [get_head_packet _ (by decide) _]
      unfold scanHeadReq
      rfl
    exact mstep_of_headreq _ fl c 0 default default 0 0 hw2
      (scanHeadAdr_lt _ _ c.uint16NumEntriesMax _ hp (by omega) hbound)

/-- C3 (amended): a completed single-queue `mkcb` scan (management
data valid, geometry in range) ends idle with the flash unchanged and
adds to `entries` exactly the number of record slots whose HEADER magic
matches the queue magic -- the footer is not consulted for the count
(the header-equals-footer check only anchors the last complete
record). -/
theorem C3_mkcb_entries (fl : Flash) (c : SfcbCb)
    (hmgmt : c.uint8MgmtValid = 1)
    (hent : c.uint16NumEntries < 65536)
    (hp : 1 ≤ c.uint16NumPagesPerElem)
    (hn : 1 ≤ c.uint16NumEntriesMax)
    (hnb : c.uint16NumEntriesMax ≤ 65535)
    (hbound : c.uint32StartSector * 4096
        + c.uint16NumPagesPerElem * 256 * c.uint16NumEntriesMax ≤ 16777216) :
    ∃ sF : Sfcb,
      mrun (2 * c.uint16NumEntriesMax + 3) (scanStart c) fl = (sF, fl)
      ∧ sF.uint8Busy = 0
      ∧ sF.cmd = SfcbCmd.idle
      ∧ (sF.ptrCbs.getD 0 default).uint16NumEntries
        = (c.uint16NumEntries
            + specMagicCount fl c.uint32StartSector c.uint16NumPagesPerElem
                c.uint16NumEntriesMax c.uint32MagicNum) % 65536 := by
  obtain ⟨hs1, hs2⟩ := scan_enter fl c hp hn hbound
  obtain ⟨sF, hrun, hbF, hcF, heF⟩ :=
    scan_run fl c.uint16NumEntriesMax c 0 default default 0 0 hn (by omega)
      hmgmt hent hp hnb hbound
  refine ⟨sF, ?_, hbF, hcF, ?_⟩
  · rw [show 2 * c.uint16NumEntriesMax + 3
        = (2 * c.uint16NumEntriesMax + 1) + 1 + 1 from by omega]
    rw [mrun]
    rw [if_neg (by simp [scanStart])]
    dsimp only
    rw [hs1]
    dsimp only
    rw [mrun]
    rw [if_neg (by simp [scanStart])]
    dsimp only
    rw [hs2]
    dsimp only
    exact hrun
  · rw [heF, scanMagicBits_eq_specMagicCount]

/-- C3 witness: scanning the one-record flash `flC3` with the valid
16-entry queue `scnC8Slot` terminates idle and counts via
`specMagicCount` (here 1 matching header). -/
theorem C3_mkcb_entries_witness :
    ∃ sF : Sfcb,
      mrun (2 * scnC8Slot.uint16NumEntriesMax + 3) (scanStart scnC8Slot) flC3
        = (sF, flC3)
      ∧ sF.uint8Busy = 0
      ∧ sF.cmd = SfcbCmd.idle
      ∧ (sF.ptrCbs.getD 0 default).uint16NumEntries
        = (scnC8Slot.uint16NumEntries
            + specMagicCount flC3 scnC8Slot.uint32StartSector
                scnC8Slot.uint16NumPagesPerElem scnC8Slot.uint16NumEntriesMax
                scnC8Slot.uint32MagicNum) % 65536 :=
  C3_mkcb_entries flC3 scnC8Slot (by decide) (by decide) (by decide)
    (by decide) (by decide) (by decide)

end SFCB
